import Mathlib

/-!
# Verification of the video-clip-library processing core

A shallow embedding, in Lean 4, of the clip segmentation, quality rating,
duplicate grouping, chunked transcription and pipeline orchestration code of
the repository (workers/cloudflare/src).  Python floats are modelled as
rationals (`ℚ`), except for cosine similarity where the square root forces
real numbers (`ℝ`).  External calls (object store, Whisper, FFmpeg, the
embedding service, the webhook endpoint) are modelled as explicit oracle
parameters returning `Except`; `asyncio.gather(..., return_exceptions=True)`
becomes a list of `Except` outcomes.  Python dicts are modelled as
association lists with insertion order and last-write-wins semantics, and
Python sets as insertion-ordered duplicate-free lists.
-/

namespace VCL

/-! ## Data model (models.py) -/

/-- `WordTimestamp` from models.py: a single word with its timestamp. -/
structure WordTimestamp where
  word : String
  start : ℚ
  «end» : ℚ
deriving DecidableEq, Repr

/-- `TranscriptSegment` from models.py: a segment of transcript with timing. -/
structure TranscriptSegment where
  text : String
  start : ℚ
  «end» : ℚ
  words : List WordTimestamp := []
deriving DecidableEq, Repr

/-- `TranscriptResult` from models.py. -/
structure TranscriptResult where
  full_text : String
  language : String
  duration : ℚ
  segments : List TranscriptSegment
  words : List WordTimestamp
deriving DecidableEq, Repr

/-- `SceneBoundary` from models.py: a scene detected in the video.
`duration` is a stored field; `SceneDetector.detect_scenes` always sets it
to `end_time - start_time` (scene_detect.py lines 177 and 190). -/
structure SceneBoundary where
  start_time : ℚ
  end_time : ℚ
  start_frame : ℤ
  end_frame : ℤ
  duration : ℚ
deriving DecidableEq, Repr

/-- `ClipDefinition` from models.py. -/
structure ClipDefinition where
  clip_id : String
  start_time : ℚ
  end_time : ℚ
  transcript : String := ""
  scene_indices : List ℕ := []
deriving DecidableEq, Repr

/-- `ClipResult` from models.py: result of clip extraction. -/
structure ClipResult where
  clip_id : String
  start_time : ℚ
  end_time : ℚ
  duration : ℚ
  video_path : String
  thumbnail_path : String
  transcript : String
deriving DecidableEq, Repr

/-! ## Error analysis data (error_detect.py) -/

/-- `SilenceRegion` from error_detect.py. -/
structure SilenceRegion where
  start : ℚ
  «end» : ℚ
  duration : ℚ
deriving DecidableEq, Repr

/-- `FillerWordDetection` from error_detect.py. -/
structure FillerWordDetection where
  word : String
  start : ℚ
  «end» : ℚ
  is_phrase : Bool := false
deriving DecidableEq, Repr

/-- `HesitationDetection` from error_detect.py. -/
structure HesitationDetection where
  start : ℚ
  «end» : ℚ
  duration : ℚ
  type : String
deriving DecidableEq, Repr

/-- `ErrorAnalysis` from error_detect.py; `total_filler_words` and
`total_hesitations` are the lengths of the two detection lists. -/
structure ErrorAnalysis where
  clip_id : String
  silence_regions : List SilenceRegion := []
  filler_words : List FillerWordDetection := []
  hesitations : List HesitationDetection := []
  suggested_trim_start : ℚ := 0
  suggested_trim_end : ℚ := 0
deriving DecidableEq, Repr

/-- `ErrorAnalysis.total_filler_words` property. -/
def ErrorAnalysis.total_filler_words (e : ErrorAnalysis) : ℕ :=
  e.filler_words.length

/-- `ErrorAnalysis.total_hesitations` property. -/
def ErrorAnalysis.total_hesitations (e : ErrorAnalysis) : ℕ :=
  e.hesitations.length

/-! ## Quality rating (quality_rate.py) -/

/-- `SpeakingQualityMetrics` from quality_rate.py. -/
structure SpeakingQualityMetrics where
  words_per_minute : ℚ := 0
  filler_word_rate : ℚ := 0
  hesitation_rate : ℚ := 0
  sentence_completion_rate : ℚ := 1
deriving DecidableEq, Repr

/-- `AudioQualityMetrics` from quality_rate.py (defaults from the dataclass). -/
structure AudioQualityMetrics where
  loudness_lufs : ℚ := -16
  loudness_range : ℚ := 5
  true_peak_db : ℚ := -1
  noise_floor_db : ℚ := -60
  clipping_detected : Bool := false
deriving DecidableEq, Repr

/-- `QualityRating` from quality_rate.py. -/
structure QualityRating where
  clip_id : String
  speaking_quality_score : ℚ
  audio_quality_score : ℚ
  overall_quality_score : ℚ
  words_per_minute : ℚ
  filler_word_count : ℕ
  hesitation_count : ℕ
  trimmed_start_seconds : ℚ
  trimmed_end_seconds : ℚ
  speaking_metrics : SpeakingQualityMetrics
  audio_metrics : AudioQualityMetrics
deriving DecidableEq, Repr

/-- Constant `OPTIMAL_WPM_MIN` from quality_rate.py. -/
def OPTIMAL_WPM_MIN : ℚ := 140
/-- Constant `OPTIMAL_WPM_MAX` from quality_rate.py. -/
def OPTIMAL_WPM_MAX : ℚ := 170
/-- Constant `MAX_WPM` from quality_rate.py. -/
def MAX_WPM : ℚ := 220
/-- Constant `MIN_WPM` from quality_rate.py. -/
def MIN_WPM : ℚ := 80
/-- Constant `EXCELLENT_FILLER_RATE` from quality_rate.py. -/
def EXCELLENT_FILLER_RATE : ℚ := 1/100
/-- Constant `GOOD_FILLER_RATE` from quality_rate.py. -/
def GOOD_FILLER_RATE : ℚ := 2/100
/-- Constant `ACCEPTABLE_FILLER_RATE` from quality_rate.py. -/
def ACCEPTABLE_FILLER_RATE : ℚ := 5/100
/-- Constant `TARGET_LOUDNESS` from quality_rate.py. -/
def TARGET_LOUDNESS : ℚ := -16
/-- Constant `LOUDNESS_TOLERANCE` from quality_rate.py. -/
def LOUDNESS_TOLERANCE : ℚ := 3
/-- Constant `NOISE_FLOOR_THRESHOLD` from quality_rate.py. -/
def NOISE_FLOOR_THRESHOLD : ℚ := -50

/-- `QualityRater.score_speaking_quality` from quality_rate.py lines 205-266:
start at 5.0, subtract a WPM penalty (capped at 2.0), a tiered filler-word
penalty, a tiered hesitation penalty, add the sentence-completion
bonus/penalty, and clamp the result to `[1, 5]`. -/
def score_speaking_quality (metrics : SpeakingQualityMetrics) : ℚ :=
  let score : ℚ := 5
  let wpm := metrics.words_per_minute
  let wpm_penalty : ℚ :=
    if wpm < MIN_WPM then (MIN_WPM - wpm) / MIN_WPM * 2
    else if wpm > MAX_WPM then (wpm - MAX_WPM) / 50
    else if wpm < OPTIMAL_WPM_MIN then (OPTIMAL_WPM_MIN - wpm) / 60 * (1/2)
    else if wpm > OPTIMAL_WPM_MAX then (wpm - OPTIMAL_WPM_MAX) / 50 * (1/2)
    else 0
  let score := score - min 2 wpm_penalty
  let filler_rate := metrics.filler_word_rate
  let filler_penalty : ℚ :=
    if filler_rate ≤ EXCELLENT_FILLER_RATE then 0
    else if filler_rate ≤ GOOD_FILLER_RATE then 3/10
    else if filler_rate ≤ ACCEPTABLE_FILLER_RATE then 7/10
    else min 2 (1 + (filler_rate - ACCEPTABLE_FILLER_RATE) * 20)
  let score := score - filler_penalty
  let hesitation_rate := metrics.hesitation_rate
  let hesitation_penalty : ℚ :=
    if hesitation_rate ≤ 2 then 0
    else if hesitation_rate ≤ 5 then 1/2
    else min (3/2) ((hesitation_rate - 5) / 5)
  let score := score - hesitation_penalty
  let completion_rate := metrics.sentence_completion_rate
  let score :=
    if completion_rate ≥ 9/10 then score + 2/10
    else if completion_rate < 1/2 then score - 1/2
    else score
  max 1 (min 5 score)

/-- `QualityRater.score_audio_quality` from quality_rate.py lines 268-313. -/
def score_audio_quality (metrics : AudioQualityMetrics) : ℚ :=
  let score : ℚ := 5
  let loudness_diff := |metrics.loudness_lufs - TARGET_LOUDNESS|
  let loudness_penalty : ℚ :=
    if loudness_diff ≤ LOUDNESS_TOLERANCE then 0
    else min 2 ((loudness_diff - LOUDNESS_TOLERANCE) / 5)
  let score := score - loudness_penalty
  let range_penalty : ℚ :=
    if metrics.loudness_range > 15 then min 1 ((metrics.loudness_range - 15) / 10)
    else 0
  let score := score - range_penalty
  let score := if metrics.clipping_detected then score - 3/2 else score
  let score :=
    if metrics.true_peak_db > -1 then score - 1/2
    else if metrics.true_peak_db > -1/2 then score - 1
    else score
  let score :=
    if metrics.noise_floor_db < NOISE_FLOOR_THRESHOLD then score + 2/10
    else score
  max 1 (min 5 score)

/-- Python `str.strip()` (ASCII whitespace), over the character list so the
kernel can evaluate it. -/
def pyStrip (s : String) : String :=
  String.mk ((s.data.dropWhile Char.isWhitespace).reverse.dropWhile
    Char.isWhitespace).reverse

/-- Python `str.rstrip()` (ASCII whitespace). -/
def pyRstrip (s : String) : String :=
  String.mk (s.data.reverse.dropWhile Char.isWhitespace).reverse

/-- Whether a trimmed word is non-empty and starts with an uppercase letter
(the `clean_word[0].isupper()` test of calculate_speaking_metrics). -/
def startsUpper (s : String) : Bool :=
  match s.data with
  | [] => false
  | c :: _ => c.isUpper

/-- Whether a trimmed word ends in one of `.`, `!`, `?` (the
`clean_word[-1] in ".!?"` test of calculate_speaking_metrics). -/
def endsSentence (s : String) : Bool :=
  match s.data.getLast? with
  | none => false
  | some c => c == '.' || c == '!' || c == '?'

/-- `QualityRater.calculate_speaking_metrics` from quality_rate.py lines
150-203: filter the transcript words to the clip's time range, compute
words-per-minute, filler rate, hesitation rate, and estimate the sentence
completion rate from capitalisation and trailing punctuation. -/
def calculate_speaking_metrics (clip : ClipResult) (words : List WordTimestamp)
    (error_analysis : ErrorAnalysis) : SpeakingQualityMetrics :=
  let clip_words := words.filter fun w =>
    decide (clip.start_time ≤ w.start ∧ w.start ≤ clip.end_time)
  let word_count : ℚ := clip_words.length
  let duration_minutes := clip.duration / 60
  let wpm := if duration_minutes > 0 then word_count / duration_minutes else 0
  let filler_count : ℚ := error_analysis.total_filler_words
  let filler_rate := if word_count > 0 then filler_count / word_count else 0
  let hesitation_count : ℚ := error_analysis.total_hesitations
  let hesitation_rate :=
    if duration_minutes > 0 then hesitation_count / duration_minutes else 0
  let sentences_started :=
    (clip_words.filter fun w => startsUpper (pyStrip w.word)).length
  let sentences_completed :=
    (clip_words.filter fun w => endsSentence (pyStrip w.word)).length
  let completion_rate : ℚ :=
    if sentences_started > 0 then
      (sentences_completed : ℚ) / (sentences_started : ℚ)
    else 1
  { words_per_minute := wpm
    filler_word_rate := filler_rate
    hesitation_rate := hesitation_rate
    sentence_completion_rate := min 1 completion_rate }

/-- Python's `round(x, 2)` modelled with Mathlib's `round` (round to nearest;
Python uses ties-to-even while `round` uses ties-up, which differs only at
exact `0.005` ties — no claim depends on a tie). -/
def round2 (q : ℚ) : ℚ := ((round (q * 100) : ℤ) : ℚ) / 100

/-- Python's `round(x, 1)`, as in `round2`. -/
def round1 (q : ℚ) : ℚ := ((round (q * 10) : ℤ) : ℚ) / 10

/-- `QualityRater.rate_clip` from quality_rate.py lines 315-361, with the
result of `analyze_audio_quality` (an FFmpeg subprocess) passed in as
`audio_metrics`.  The default weights of `QualityRater.__init__` are 0.6
speaking / 0.4 audio. -/
def rate_clip (clip : ClipResult) (words : List WordTimestamp)
    (error_analysis : ErrorAnalysis) (audio_metrics : AudioQualityMetrics)
    (speaking_weight : ℚ := 6/10) (audio_weight : ℚ := 4/10) : QualityRating :=
  let speaking_metrics := calculate_speaking_metrics clip words error_analysis
  let speaking_score := score_speaking_quality speaking_metrics
  let audio_score := score_audio_quality audio_metrics
  let overall_score := speaking_score * speaking_weight + audio_score * audio_weight
  { clip_id := clip.clip_id
    speaking_quality_score := round2 speaking_score
    audio_quality_score := round2 audio_score
    overall_quality_score := round2 overall_score
    words_per_minute := round1 speaking_metrics.words_per_minute
    filler_word_count := error_analysis.total_filler_words
    hesitation_count := error_analysis.total_hesitations
    trimmed_start_seconds := error_analysis.suggested_trim_start
    trimmed_end_seconds := error_analysis.suggested_trim_end
    speaking_metrics := speaking_metrics
    audio_metrics := audio_metrics }

/-- The neutral default rating built in `rate_clips` for a clip whose rating
task raised (quality_rate.py lines 402-414). -/
def defaultRating (cid : String) : QualityRating :=
  { clip_id := cid
    speaking_quality_score := 3
    audio_quality_score := 3
    overall_quality_score := 3
    words_per_minute := 0
    filler_word_count := 0
    hesitation_count := 0
    trimmed_start_seconds := 0
    trimmed_end_seconds := 0
    speaking_metrics := {}
    audio_metrics := {} }

/-- Lookup in a Python dict built by `{key(e): e for e in xs}`: the last
element with the given key wins. -/
def dictLast (k : String) (xs : List α) (key : α → String) : Option α :=
  xs.reverse.find? fun e => key e == k

/-- `QualityRater.rate_clips` from quality_rate.py lines 363-418.  The audio
analysis subprocess is the oracle `audioFor`; `taskFailure clip = some msg`
models the clip's gathered task having raised an exception (the
`asyncio.gather(..., return_exceptions=True)` outcome), in which case the
neutral default rating is substituted. -/
def rate_clips (audioFor : ClipResult → AudioQualityMetrics)
    (taskFailure : ClipResult → Option String) (clips : List ClipResult)
    (transcript : TranscriptResult) (error_analyses : List ErrorAnalysis) :
    List QualityRating :=
  clips.map fun clip =>
    let error_analysis :=
      (dictLast clip.clip_id error_analyses ErrorAnalysis.clip_id).getD
        { clip_id := clip.clip_id }
    match taskFailure clip with
    | some _ => defaultRating clip.clip_id
    | none => rate_clip clip transcript.words error_analysis (audioFor clip)

/-! ## Duplicate detection (duplicate_detect.py) -/

/-- Constant `DUPLICATE_THRESHOLD` from duplicate_detect.py. -/
def DUPLICATE_THRESHOLD : ℚ := 0.95
/-- Constant `MULTIPLE_TAKES_THRESHOLD` from duplicate_detect.py. -/
def MULTIPLE_TAKES_THRESHOLD : ℚ := 0.85
/-- Constant `SAME_TOPIC_THRESHOLD` from duplicate_detect.py. -/
def SAME_TOPIC_THRESHOLD : ℚ := 0.75
/-- Constant `MULTIPLE_TAKES_TIME_WINDOW` from duplicate_detect.py. -/
def MULTIPLE_TAKES_TIME_WINDOW : ℚ := 120
/-- Constant `DEFAULT_MODEL_NAME` from duplicate_detect.py. -/
def DEFAULT_MODEL_NAME : String := "text-embedding-3-small"
/-- Constant `EMBEDDING_BATCH_SIZE` from duplicate_detect.py. -/
def EMBEDDING_BATCH_SIZE : ℕ := 100

/-- `GroupType` from duplicate_detect.py. -/
inductive GroupType where
  | duplicate
  | multiple_takes
  | same_topic
deriving DecidableEq, Repr

/-- `ClipEmbedding` from duplicate_detect.py. -/
structure ClipEmbedding where
  clip_id : String
  embedding : List ℚ
  model_name : String := DEFAULT_MODEL_NAME
deriving DecidableEq, Repr

/-- `SimilarityPair` from duplicate_detect.py. -/
structure SimilarityPair where
  clip_id_1 : String
  clip_id_2 : String
  similarity : ℚ
  start_time_1 : ℚ := 0
  start_time_2 : ℚ := 0
deriving DecidableEq, Repr

/-- `ClipGroup` from duplicate_detect.py; `similarity_scores` is a dict
clip_id → score, modelled as an association list.  `group_id` is a fresh
`uuid4` in the source and is modelled as `""`. -/
structure ClipGroup where
  group_id : String
  group_type : GroupType
  clip_ids : List String
  representative_clip_id : String
  similarity_scores : List (String × ℚ) := []
deriving DecidableEq, Repr

/-- `DuplicateDetector.classify_pair` from duplicate_detect.py lines 265-291,
at the default thresholds of `DuplicateDetector.__init__`.  `same_source`
defaults to `True` exactly as in the source. -/
def classify_pair (pair : SimilarityPair) (same_source : Bool := true) :
    Option GroupType :=
  if pair.similarity ≥ DUPLICATE_THRESHOLD then some GroupType.duplicate
  else
    let time_diff := |pair.start_time_1 - pair.start_time_2|
    if pair.similarity ≥ MULTIPLE_TAKES_THRESHOLD ∧ same_source = true ∧
        time_diff ≤ MULTIPLE_TAKES_TIME_WINDOW then
      some GroupType.multiple_takes
    else if pair.similarity ≥ SAME_TOPIC_THRESHOLD then some GroupType.same_topic
    else none

/-- Helper for `chunksOf`: collect elements into the open chunk `acc`,
cutting whenever it reaches size `n`. -/
def chunksGo (n : ℕ) : List α → List α → List (List α)
  | [], acc => if acc.isEmpty then [] else [acc]
  | x :: xs, acc =>
    if acc.length + 1 = n then (acc ++ [x]) :: chunksGo n xs []
    else chunksGo n xs (acc ++ [x])

/-- `[l[i:i+n] for i in range(0, len(l), n)]` for `n > 0`: the consecutive
chunks of size `n` (last one possibly shorter). -/
def chunksOf (n : ℕ) (l : List α) : List (List α) := chunksGo n l []

/-- Sequential batched calls to the embedding API, one per chunk: any batch
whose retries are exhausted propagates its exception; successful batches
are concatenated in order. -/
def embedChunks (api : List String → Except String (List (List ℚ))) :
    List (List String) → Except String (List (List ℚ))
  | [] => .ok []
  | batch :: rest =>
    match api batch with
    | .error e => .error e
    | .ok batch_embeddings =>
      match embedChunks api rest with
      | .error e => .error e
      | .ok rest_embeddings => .ok (batch_embeddings ++ rest_embeddings)

/-- The `for i in range(0, len(transcripts), EMBEDDING_BATCH_SIZE)` loop of
`generate_embeddings` (duplicate_detect.py lines 168-174). -/
def embedBatches (api : List String → Except String (List (List ℚ)))
    (texts : List String) : Except String (List (List ℚ)) :=
  embedChunks api (chunksOf EMBEDDING_BATCH_SIZE texts)

/-- `DuplicateDetector.generate_embeddings` from duplicate_detect.py lines
147-186: embed the transcript of every clip (no filtering), batched to
`EMBEDDING_BATCH_SIZE`, then pair the i-th clip with the i-th returned
vector.  Python's `all_embeddings[i]` raises `IndexError` when the API
returned fewer vectors than there are clips; surplus vectors are ignored. -/
def generate_embeddings (api : List String → Except String (List (List ℚ)))
    (clips : List ClipResult) : Except String (List ClipEmbedding) :=
  if clips.isEmpty then .ok []
  else
    let transcripts := clips.map (·.transcript)
    match embedBatches api transcripts with
    | .error e => .error e
    | .ok all_embeddings =>
      if all_embeddings.length < clips.length then .error "IndexError"
      else
        .ok (List.zipWith
          (fun (clip : ClipResult) emb =>
            { clip_id := clip.clip_id, embedding := emb,
              model_name := DEFAULT_MODEL_NAME : ClipEmbedding })
          clips all_embeddings)

/-- `DuplicateDetector.compute_similarity` from duplicate_detect.py lines
188-212, over real vectors: the dot product of the common prefix (`zip`
truncates to the shorter list) divided by the product of the Euclidean
norms, with `0.0` returned when either norm is zero. -/
noncomputable def compute_similarity (embedding1 embedding2 : List ℝ) : ℝ :=
  let dot_product := (List.zipWith (· * ·) embedding1 embedding2).sum
  let norm1 := Real.sqrt (embedding1.map fun a => a * a).sum
  let norm2 := Real.sqrt (embedding2.map fun b => b * b).sum
  if norm1 = 0 ∨ norm2 = 0 then 0 else dot_product / (norm1 * norm2)

/-! Association-list helpers modelling Python dicts (insertion-ordered keys,
assignment overwrites in place) and sets (modelled with insertion order). -/

/-- `m[k]` / `m.get(k)` on a dict modelled as an association list. -/
def alGet [BEq κ] (m : List (κ × β)) (k : κ) : Option β :=
  (m.find? fun p => p.1 == k).map (·.2)

/-- `m[k] = v` on a dict modelled as an association list: overwrite in place
if the key exists, else append. -/
def alSet [BEq κ] (m : List (κ × β)) (k : κ) (v : β) : List (κ × β) :=
  if m.any (fun p => p.1 == k) then
    m.map fun p => if p.1 == k then (k, v) else p
  else m ++ [(k, v)]

/-- `defaultdict(set)`-style `adjacency[k].add(v)`. -/
def setAdd (m : List (String × List String)) (k v : String) :
    List (String × List String) :=
  let cur := (alGet m k).getD []
  alSet m k (if cur.contains v then cur else cur ++ [v])

/-- Strict lexicographic order on character lists by code point — Python's
`<` on strings. -/
def lexLt : List Char → List Char → Bool
  | [], [] => false
  | [], _ :: _ => true
  | _ :: _, [] => false
  | a :: as, b :: bs => if a < b then true else if a == b then lexLt as bs else false

/-- `tuple(sorted([a, b]))` on two strings: `sorted` is stable, so the pair
is swapped exactly when `b < a`. -/
def sortedKey (a b : String) : String × String :=
  if lexLt b.data a.data then (b, a) else (a, b)

/-- The recursive closure `dfs` of `build_groups` (duplicate_detect.py lines
335-340): append the node to `visited` and to the current component, then
recurse into unvisited neighbours.  Python recursion has no explicit bound;
the structural `gas` list only has to be at least as long as the recursion
depth, which is bounded by the number of adjacency keys. -/
def dfs (adjacency : List (String × List String)) :
    List (String × List String) → String → List String → List String →
    List String × List String
  | [], _, visited, component => (visited, component)
  | _ :: gas, node, visited, component =>
    let visited := visited ++ [node]
    let component := component ++ [node]
    ((alGet adjacency node).getD []).foldl
      (fun st neighbor =>
        if st.1.contains neighbor then st
        else dfs adjacency gas neighbor st.1 st.2)
      (visited, component)

/-- The connected-component loop of `build_groups` (duplicate_detect.py lines
342-347): iterate the adjacency keys in insertion order, run `dfs` on each
unvisited key, and keep the components of size ≥ 2. -/
def connectedComponents (adjacency : List (String × List String)) :
    List (List String) :=
  (adjacency.foldl
    (fun (st : List String × List (List String)) entry =>
      if st.1.contains entry.1 then st
      else
        let r := dfs adjacency adjacency entry.1 st.1 []
        (r.1, if r.2.length > 1 then st.2 ++ [r.2] else st.2))
    ([], [])).2

/-- `DuplicateDetector.build_groups` from duplicate_detect.py lines 293-373.
Pairs are classified with `classify_pair(pair)` — `same_source` is left at
its default `True`.  The `clips` argument mirrors the source signature; the
`clip_map` built from it in the source is never read. -/
def build_groups (pairs : List SimilarityPair) (clips : List ClipResult) :
    List ClipGroup :=
  let _ := clips
  let type_pairs : List (GroupType × List SimilarityPair) :=
    pairs.foldl
      (fun m pair =>
        match classify_pair pair with
        | some group_type =>
          alSet m group_type ((alGet m group_type).getD [] ++ [pair])
        | none => m)
      []
  type_pairs.flatMap fun tp =>
    let typed_pairs := tp.2
    let adjacency := typed_pairs.foldl
      (fun adj pair =>
        setAdd (setAdd adj pair.clip_id_1 pair.clip_id_2) pair.clip_id_2
          pair.clip_id_1)
      []
    let similarities := typed_pairs.foldl
      (fun m pair =>
        alSet m (sortedKey pair.clip_id_1 pair.clip_id_2) pair.similarity)
      []
    (connectedComponents adjacency).map fun component =>
      let representative := component.headD ""
      let scores := (component.filter fun cid => cid != representative).map
        fun cid => (cid, (alGet similarities (sortedKey representative cid)).getD 0)
      { group_id := ""
        group_type := tp.1
        clip_ids := component
        representative_clip_id := representative
        similarity_scores := scores }

/-- The key-dedup of a Python dict comprehension: first-insertion order. -/
def insertedKeys (ks : List String) : List String :=
  ks.foldl (fun acc k => if acc.contains k then acc else acc ++ [k]) []

/-- All ordered index pairs `i < j` of a list, as produced by the double loop
of `find_similar_pairs`. -/
def orderedPairs : List α → List (α × α)
  | [] => []
  | x :: xs => xs.map (fun y => (x, y)) ++ orderedPairs xs

/-- `DuplicateDetector.find_similar_pairs` from duplicate_detect.py lines
214-263, with cosine similarity over float vectors abstracted as the
function `sim` (the exact real-valued `compute_similarity` is kept
separate).  Clips absent from `clip_map` contribute start time `0.0`. -/
def find_similar_pairs (sim : List ℚ → List ℚ → ℚ)
    (embeddings : List ClipEmbedding) (clips : List ClipResult)
    (min_similarity : ℚ := SAME_TOPIC_THRESHOLD) : List SimilarityPair :=
  let clip_ids := insertedKeys (embeddings.map (·.clip_id))
  let embFor := fun cid =>
    ((dictLast cid embeddings ClipEmbedding.clip_id).map (·.embedding)).getD []
  (orderedPairs clip_ids).filterMap fun p =>
    let similarity := sim (embFor p.1) (embFor p.2)
    if similarity ≥ min_similarity then
      let clip1 := dictLast p.1 clips ClipResult.clip_id
      let clip2 := dictLast p.2 clips ClipResult.clip_id
      some
        { clip_id_1 := p.1
          clip_id_2 := p.2
          similarity := similarity
          start_time_1 := (clip1.map (·.start_time)).getD 0
          start_time_2 := (clip2.map (·.start_time)).getD 0 }
    else none

/-- `DuplicateDetector.find_groups` from duplicate_detect.py lines 375-408
(with embeddings supplied, as the pipeline does). -/
def find_groups (sim : List ℚ → List ℚ → ℚ) (clips : List ClipResult)
    (embeddings : List ClipEmbedding) : List ClipGroup :=
  build_groups (find_similar_pairs sim embeddings clips) clips

/-! ## Clip segmentation (split_video.py) -/

/-- Python's `f"{i:04d}"`. -/
def pad4 (n : ℕ) : String :=
  let s := toString n
  String.mk (List.replicate (4 - s.length) '0') ++ s

/-- The clip id format `f"{source_id}_clip_{clip_index:04d}"`. -/
def formatClipId (source_id : String) (clip_index : ℕ) : String :=
  source_id ++ "_clip_" ++ pad4 clip_index

/-- `_get_transcript_for_range` from split_video.py lines 382-393: the
space-joined, stripped texts of all segments overlapping the range. -/
def get_transcript_for_range (segments : List TranscriptSegment)
    (start_time end_time : ℚ) : String :=
  pyStrip (String.intercalate " "
    ((segments.filter fun seg =>
      decide (seg.«end» > start_time ∧ seg.start < end_time)).map (·.text)))

/-- `seg.text.rstrip().endswith((".", "!", "?"))` from `_split_long_scene`. -/
def endsTerminal (s : String) : Bool :=
  match (pyRstrip s).data.getLast? with
  | none => false
  | some c => c == '.' || c == '!' || c == '?'

/-- The even-split `while` loop of `_split_long_scene` (split_video.py lines
419-432), used when no transcript segment overlaps the scene.  `fuel` bounds
the number of iterations; the Python loop terminates because `clip_end`
strictly exceeds `current_start` whenever `max_duration > 0`. -/
def splitEvenLoop (source_id : String) (min_duration max_duration end_time : ℚ) :
    ℕ → ℚ → ℕ → List ClipDefinition
  | 0, _, _ => []
  | fuel + 1, current_start, clip_index =>
    if current_start < end_time then
      let clip_end := min (current_start + max_duration) end_time
      if clip_end - current_start ≥ min_duration then
        { clip_id := formatClipId source_id clip_index
          start_time := current_start
          end_time := clip_end
          transcript := "" } ::
          splitEvenLoop source_id min_duration max_duration end_time fuel
            clip_end (clip_index + 1)
      else
        splitEvenLoop source_id min_duration max_duration end_time fuel
          clip_end clip_index
    else []

/-- The inner `for seg in relevant_segments[segment_idx:]` loop of
`_split_long_scene` (split_video.py lines 445-461), returning the final
`(best_break, accumulated_text, segment_idx)`.  Python's float literal `0.7`
is modelled as `7/10`.  On the early `break` for a good-enough sentence end,
`segment_idx` is not incremented (the `break` skips line 461). -/
def findBreak (current_start target_end min_duration max_duration : ℚ) :
    List TranscriptSegment → ℚ → List String → ℕ → ℚ × List String × ℕ
  | [], best_break, acc, segment_idx => (best_break, acc, segment_idx)
  | seg :: rest, best_break, acc, segment_idx =>
    if seg.start ≥ target_end then (best_break, acc, segment_idx)
    else if seg.start ≥ current_start then
      let acc := acc ++ [seg.text]
      if seg.«end» ≥ current_start + min_duration then
        if endsTerminal seg.text then
          if seg.«end» ≥ current_start + max_duration * (7/10) then
            (seg.«end», acc, segment_idx)
          else
            findBreak current_start target_end min_duration max_duration rest
              seg.«end» acc (segment_idx + 1)
        else
          findBreak current_start target_end min_duration max_duration rest
            seg.«end» acc (segment_idx + 1)
      else
        findBreak current_start target_end min_duration max_duration rest
          best_break acc (segment_idx + 1)
    else
      findBreak current_start target_end min_duration max_duration rest
        best_break acc segment_idx

/-- The outer segment-aligned `while` loop of `_split_long_scene`
(split_video.py lines 438-475). -/
def splitSegsLoop (relevant_segments : List TranscriptSegment)
    (min_duration max_duration end_time : ℚ) (source_id : String) :
    ℕ → ℚ → ℕ → ℕ → List ClipDefinition
  | 0, _, _, _ => []
  | fuel + 1, current_start, segment_idx, clip_index =>
    if current_start < end_time ∧ segment_idx < relevant_segments.length then
      let target_end := current_start + max_duration
      let r := findBreak current_start target_end min_duration max_duration
        (relevant_segments.drop segment_idx) (current_start + min_duration) []
        segment_idx
      let clip_end := min r.1 end_time
      if clip_end - current_start ≥ min_duration then
        { clip_id := formatClipId source_id clip_index
          start_time := current_start
          end_time := clip_end
          transcript := pyStrip (String.intercalate " " r.2.1) } ::
          splitSegsLoop relevant_segments min_duration max_duration end_time
            source_id fuel clip_end r.2.2 (clip_index + 1)
      else
        splitSegsLoop relevant_segments min_duration max_duration end_time
          source_id fuel clip_end r.2.2 clip_index
    else []

/-- `_split_long_scene` from split_video.py lines 396-477. -/
def split_long_scene (fuel : ℕ) (start_time end_time : ℚ)
    (transcript_segments : List TranscriptSegment)
    (min_duration max_duration : ℚ) (source_id : String) (start_index : ℕ) :
    List ClipDefinition :=
  let relevant_segments := transcript_segments.filter fun seg =>
    decide (seg.«end» > start_time ∧ seg.start < end_time)
  if relevant_segments.isEmpty then
    splitEvenLoop source_id min_duration max_duration end_time fuel start_time
      start_index
  else
    splitSegsLoop relevant_segments min_duration max_duration end_time
      source_id fuel start_time 0 start_index

/-- The `for scene in scenes` loop of `create_clip_definitions`
(split_video.py lines 341-377), carrying `clip_index`. -/
def createClipsLoop (all_scenes : List SceneBoundary)
    (transcript_segments : List TranscriptSegment)
    (min_duration max_duration : ℚ) (source_id : String) (fuel : ℕ) :
    List SceneBoundary → ℕ → List ClipDefinition
  | [], _ => []
  | scene :: rest, clip_index =>
    if scene.duration < min_duration then
      createClipsLoop all_scenes transcript_segments min_duration max_duration
        source_id fuel rest clip_index
    else if scene.duration ≤ max_duration then
      { clip_id := formatClipId source_id clip_index
        start_time := scene.start_time
        end_time := scene.end_time
        transcript := get_transcript_for_range transcript_segments
          scene.start_time scene.end_time
        scene_indices := [all_scenes.indexOf scene] } ::
        createClipsLoop all_scenes transcript_segments min_duration
          max_duration source_id fuel rest (clip_index + 1)
    else
      let sub_clips := split_long_scene fuel scene.start_time scene.end_time
        transcript_segments min_duration max_duration source_id clip_index
      sub_clips ++
        createClipsLoop all_scenes transcript_segments min_duration
          max_duration source_id fuel rest (clip_index + sub_clips.length)

/-- `create_clip_definitions` from split_video.py lines 314-379. -/
def create_clip_definitions (fuel : ℕ) (scenes : List SceneBoundary)
    (transcript_segments : List TranscriptSegment) (min_duration : ℚ := 3)
    (max_duration : ℚ := 20) (source_id : String := "") : List ClipDefinition :=
  createClipsLoop scenes transcript_segments min_duration max_duration
    source_id fuel scenes 0

/-! ## Chunked transcription (transcribe.py) -/

/-- Constant `MAX_AUDIO_SIZE_MB` from transcribe.py. -/
def MAX_AUDIO_SIZE_MB : ℚ := 25
/-- Constant `CHUNK_DURATION_SECONDS` from transcribe.py. -/
def CHUNK_DURATION_SECONDS : ℚ := 600

/-- Add a chunk's start offset to one word timestamp (transcribe.py lines
309-313 and 319-325). -/
def shiftWord (offset : ℚ) (w : WordTimestamp) : WordTimestamp :=
  { word := w.word, start := w.start + offset, «end» := w.«end» + offset }

/-- Add a chunk's start offset to one segment, including its owned words
(transcribe.py lines 303-316). -/
def shiftSegment (offset : ℚ) (s : TranscriptSegment) : TranscriptSegment :=
  { text := s.text
    start := s.start + offset
    «end» := s.«end» + offset
    words := s.words.map (shiftWord offset) }

/-- The mutable accumulators of `transcribe_chunked` (transcribe.py lines
273-276). -/
structure ChunkState where
  all_segments : List TranscriptSegment := []
  all_words : List WordTimestamp := []
  all_text_parts : List String := []
  detected_language : Option String := none
deriving DecidableEq, Repr

/-- The `for i in range(num_chunks)` loop of `transcribe_chunked`
(transcribe.py lines 279-339).  `chunkExtract i` models
`_extract_audio_chunk` for chunk `i` (an uncaught failure aborts the whole
call); `chunkTranscribe i` models `transcribe_audio` on the chunk file,
whose exception is caught and merely skips the chunk. -/
def chunkLoop (chunkExtract : ℕ → Except String Unit)
    (chunkTranscribe : ℕ → Except String TranscriptResult) :
    List ℕ → ChunkState → Except String ChunkState
  | [], st => .ok st
  | i :: rest, st =>
    match chunkExtract i with
    | .error e => .error e
    | .ok _ =>
      match chunkTranscribe i with
      | .error _ => chunkLoop chunkExtract chunkTranscribe rest st
      | .ok chunk_result =>
        let start_time : ℚ := i * CHUNK_DURATION_SECONDS
        chunkLoop chunkExtract chunkTranscribe rest
          { all_segments :=
              st.all_segments ++ chunk_result.segments.map (shiftSegment start_time)
            all_words :=
              st.all_words ++ chunk_result.words.map (shiftWord start_time)
            all_text_parts := st.all_text_parts ++ [chunk_result.full_text]
            detected_language :=
              match st.detected_language with
              | some l => some l
              | none => some chunk_result.language }

/-- `Transcriber.transcribe_chunked` from transcribe.py lines 226-356.
`direct` models `transcribe_audio` on the whole file (used when the size is
within the 25MB limit) and `durationProbe` models `_get_audio_duration`. -/
def transcribe_chunked (file_size_mb : ℚ)
    (direct : Except String TranscriptResult)
    (durationProbe : Except String ℚ)
    (chunkExtract : ℕ → Except String Unit)
    (chunkTranscribe : ℕ → Except String TranscriptResult)
    (language : Option String) : Except String TranscriptResult :=
  if file_size_mb ≤ MAX_AUDIO_SIZE_MB then direct
  else
    match durationProbe with
    | .error e => .error e
    | .ok duration =>
      let num_chunks := (Int.ceil (duration / CHUNK_DURATION_SECONDS)).toNat
      match chunkLoop chunkExtract chunkTranscribe (List.range num_chunks)
          { detected_language := language } with
      | .error e => .error e
      | .ok st =>
        .ok
          { full_text := String.intercalate " " st.all_text_parts
            language := st.detected_language.getD "en"
            duration := duration
            segments := st.all_segments
            words := st.all_words }

/-! ## Pipeline orchestration (pipeline.py) -/

/-- `ProcessingStatus` from models.py. -/
inductive ProcessingStatus where
  | pending
  | downloading
  | transcribing
  | detecting_scenes
  | splitting
  | tagging
  | uploading
  | completed
  | failed
deriving DecidableEq, Repr

/-- One webhook delivery attempt as observed by `call_webhook`: either an
HTTP response with a status code, or an `httpx.RequestError`. -/
inductive WebhookAttemptResult where
  | response (status_code : ℕ)
  | requestError (msg : String)
deriving DecidableEq, Repr

/-- The retry loop of `VideoPipeline.call_webhook` (pipeline.py lines
256-290): succeed on the first response with status code `< 400`, otherwise
retry (with backoff, irrelevant here) and return `False` after `retries`
attempts. -/
def callWebhookLoop (attempts : ℕ → WebhookAttemptResult) : ℕ → ℕ → Bool
  | _, 0 => false
  | attempt, n + 1 =>
    match attempts attempt with
    | .response code =>
      if code < 400 then true else callWebhookLoop attempts (attempt + 1) n
    | .requestError _ => callWebhookLoop attempts (attempt + 1) n

/-- `VideoPipeline.call_webhook` from pipeline.py lines 225-290, with the
network modelled by the per-attempt oracle `attempts`.  Returns `True` iff
some attempt succeeded; never raises. -/
def call_webhook (attempts : ℕ → WebhookAttemptResult) (retries : ℕ := 3) : Bool :=
  callWebhookLoop attempts 0 retries

/-- One element of the `uploads` list built by `upload_clips`
(pipeline.py lines 207-222). -/
structure UploadInfo where
  video_url : String
  thumbnail_url : String
  video_key : String
  thumbnail_key : String
deriving DecidableEq, Repr

/-- The interleaved `(local path, object key)` upload tasks issued by
`upload_clips` (pipeline.py lines 180-200): video then thumbnail for each
clip in order. -/
def uploadTasks (clips : List ClipResult) (source_id : String) :
    List (String × String) :=
  clips.flatMap fun clip =>
    [(clip.video_path, "clips/" ++ source_id ++ "/" ++ clip.clip_id ++ ".mp4"),
     (clip.thumbnail_path,
      "clips/" ++ source_id ++ "/" ++ clip.clip_id ++ "_thumb.jpg")]

/-- `VideoPipeline.upload_clips` from pipeline.py lines 164-223: gather all
per-object upload outcomes; if any is an exception, raise `PipelineError`,
else pair consecutive results into per-clip upload records. -/
def upload_clips (upload : String → String → Except String String)
    (clips : List ClipResult) (source_id : String) :
    Except String (List UploadInfo) :=
  let tasks := uploadTasks clips source_id
  let results := tasks.map fun t => upload t.1 t.2
  let failures := results.filter fun r => !r.isOk
  if failures.length > 0 then
    .error ("Failed to upload " ++ toString failures.length ++
      " clip assets to R2")
  else
    .ok (clips.enum.map fun p =>
      { video_url := ((results.get? (2 * p.1)).bind Except.toOption).getD ""
        thumbnail_url :=
          ((results.get? (2 * p.1 + 1)).bind Except.toOption).getD ""
        video_key := "clips/" ++ source_id ++ "/" ++ p.2.clip_id ++ ".mp4"
        thumbnail_key :=
          "clips/" ++ source_id ++ "/" ++ p.2.clip_id ++ "_thumb.jpg" })

/-- `VideoSplitter.split_video` from split_video.py lines 232-292: gather
per-clip extraction outcomes (the oracle `extract` models
`split_single_clip`, an FFmpeg subprocess) and keep the successful ones in
order; a failed clip is logged and dropped. -/
def split_video_results (extract : ClipDefinition → Except String ClipResult)
    (clips : List ClipDefinition) : List ClipResult :=
  (clips.map extract).filterMap Except.toOption

/-- `ProcessedClipWithQuality` from models.py, without the tagging payload
(the tagging stage never raises — tagger.py tag_clips substitutes a
fallback per clip — and no claim mentions tags). -/
structure ProcessedClipWithQuality where
  clip_id : String
  source_id : String
  start_time : ℚ
  end_time : ℚ
  duration : ℚ
  transcript : String
  video_url : String
  thumbnail_url : String
  quality_rating : Option QualityRating := none
  error_analysis : Option ErrorAnalysis := none
  embedding : Option (List ℚ) := none
deriving DecidableEq, Repr

/-- `PipelineResultWithQuality` from models.py.  `job_id` is a fresh `uuid4`
and `processing_time_seconds` is wall-clock time; both are modelled as
constants. -/
structure PipelineResultWithQuality where
  job_id : String := ""
  source_id : String
  status : ProcessingStatus
  total_duration : ℚ
  total_clips : ℕ
  clips : List ProcessedClipWithQuality
  transcript : TranscriptResult
  clip_groups : List ClipGroup := []
  embeddings : List ClipEmbedding := []
deriving DecidableEq, Repr

/-- The environment of one `VideoPipeline.process_video` job: every external
effect is an oracle.  `download`, `transcribe`, `detect_scenes` model steps
1-3 (each may raise); `extract` models per-clip FFmpeg extraction;
`upload` the per-object R2 upload after its internal retries; `error_detect`
the error-detector batch (never raises — per-clip fallbacks); `audioFor`
and `rateFailure` the audio probe and per-clip task outcome inside
`rate_clips`; `embedApi` the embedding endpoint after retries; `sim` cosine
similarity on stored vectors; `webhook` the per-attempt webhook outcomes. -/
structure PipelineEnv where
  source_id : String
  min_clip_duration : ℚ := 3
  max_clip_duration : ℚ := 20
  enable_quality_analysis : Bool := true
  fuel : ℕ := 1000
  download : Except String String
  transcribe : Except String TranscriptResult
  detect_scenes : Except String (List SceneBoundary)
  extract : ClipDefinition → Except String ClipResult
  upload : String → String → Except String String
  error_detect : List ClipResult → List ErrorAnalysis
  audioFor : ClipResult → AudioQualityMetrics
  rateFailure : ClipResult → Option String
  embedApi : List String → Except String (List (List ℚ))
  sim : List ℚ → List ℚ → ℚ
  webhook : ℕ → WebhookAttemptResult

/-- Steps 1-12 of `VideoPipeline.process_video` (pipeline.py lines 338-618),
inside the `try`: any stage exception short-circuits to `.error`.  The
tagging stage (step 6) is omitted: it cannot raise and its payload is not
modelled.  A `.ok` result is only built — with status `completed` — after
`upload_clips` has succeeded. -/
def runStages (env : PipelineEnv) : Except String PipelineResultWithQuality :=
  match env.download with
  | .error e => .error e
  | .ok _video_path =>
  match env.transcribe with
  | .error e => .error e
  | .ok transcript =>
  match env.detect_scenes with
  | .error e => .error e
  | .ok scenes =>
  let clip_definitions := create_clip_definitions env.fuel scenes
    transcript.segments env.min_clip_duration env.max_clip_duration
    env.source_id
  if clip_definitions.isEmpty then
    .error "No valid clips could be created from video"
  else
  let clip_results := split_video_results env.extract clip_definitions
  match upload_clips env.upload clip_results env.source_id with
  | .error e => .error e
  | .ok upload_results =>
  match (if env.enable_quality_analysis then
      match generate_embeddings env.embedApi clip_results with
      | .error e => .error e
      | .ok embeddings =>
        let error_analyses := env.error_detect clip_results
        .ok (error_analyses,
          rate_clips env.audioFor env.rateFailure clip_results transcript
            error_analyses,
          embeddings,
          find_groups env.sim clip_results embeddings)
    else (.ok ([], [], [], []) :
      Except String (List ErrorAnalysis × List QualityRating ×
        List ClipEmbedding × List ClipGroup))) with
  | .error e => .error e
  | .ok qa =>
  let processed_clips := clip_results.enum.map fun p =>
    let upload_result := (upload_results.get? p.1).getD
      { video_url := "", thumbnail_url := "", video_key := "",
        thumbnail_key := "" }
    { clip_id := p.2.clip_id
      source_id := env.source_id
      start_time := p.2.start_time
      end_time := p.2.end_time
      duration := p.2.duration
      transcript := p.2.transcript
      video_url := upload_result.video_url
      thumbnail_url := upload_result.thumbnail_url
      quality_rating := dictLast p.2.clip_id qa.2.1 QualityRating.clip_id
      error_analysis := dictLast p.2.clip_id qa.1 ErrorAnalysis.clip_id
      embedding := (dictLast p.2.clip_id qa.2.2.1 ClipEmbedding.clip_id).map
        (·.embedding) : ProcessedClipWithQuality }
  .ok
    { source_id := env.source_id
      status := ProcessingStatus.completed
      total_duration := transcript.duration
      total_clips := processed_clips.length
      clips := processed_clips
      transcript := transcript
      clip_groups := qa.2.2.2
      embeddings := qa.2.2.1 }

/-- `VideoPipeline.process_video` from pipeline.py lines 292-637: on the
success path the completion webhook is called and its boolean result
discarded; on any exception the failure webhook is called (result likewise
discarded) and a `PipelineError` wrapping the message is raised. -/
def process_video (env : PipelineEnv) : Except String PipelineResultWithQuality :=
  match runStages env with
  | .ok result =>
    let _webhook_delivered := call_webhook env.webhook 3
    .ok result
  | .error e =>
    let _webhook_delivered := call_webhook env.webhook 3
    .error ("Pipeline failed: " ++ e)

/-- The clip definitions a job would compute at step 4, recovered from the
environment (empty when an earlier stage fails before reaching step 4). -/
def pipelineClipDefinitions (env : PipelineEnv) : List ClipDefinition :=
  match env.transcribe, env.detect_scenes with
  | .ok transcript, .ok scenes =>
    create_clip_definitions env.fuel scenes transcript.segments
      env.min_clip_duration env.max_clip_duration env.source_id
  | _, _ => []

/-- The extracted clips a job would hold after step 5. -/
def pipelineClipResults (env : PipelineEnv) : List ClipResult :=
  split_video_results env.extract (pipelineClipDefinitions env)

/-- The `(path, key)` upload tasks a job issues at step 7. -/
def pipelineUploadTasks (env : PipelineEnv) : List (String × String) :=
  uploadTasks (pipelineClipResults env) env.source_id

/-- Decidable equality on `Except`, needed to evaluate oracle outcomes in
witnesses. -/
instance [DecidableEq ε] [DecidableEq α] : DecidableEq (Except ε α) :=
  fun a b =>
    match a, b with
    | .error e1, .error e2 =>
      if h : e1 = e2 then .isTrue (by rw [h]) else .isFalse (by simp [h])
    | .error _, .ok _ => .isFalse (by simp)
    | .ok _, .error _ => .isFalse (by simp)
    | .ok v1, .ok v2 =>
      if h : v1 = v2 then .isTrue (by rw [h]) else .isFalse (by simp [h])

/-! ## Concrete fixtures used by witnesses and counterexamples -/

/-- A 60-second clip used by the C6 development. -/
def clip60 : ClipResult :=
  { clip_id := "c", start_time := 0, end_time := 60, duration := 60,
    video_path := "v", thumbnail_path := "t", transcript := "t" }

/-- 150 words evenly spread over the 60-second clip, none capitalised and
none ending in terminal punctuation. -/
def words150 : List WordTimestamp :=
  (List.range 150).map fun i =>
    { word := "word", start := (i : ℚ) * (2/5), «end» := (i : ℚ) * (2/5) + 1/5 }

/-- The spec's end-to-end scenario scene: one 12-second scene `[0, 12]`. -/
def scenesW : List SceneBoundary :=
  [{ start_time := 0, end_time := 12, start_frame := 0, end_frame := 360,
     duration := 12 }]

/-- The spec's end-to-end transcript segments at 0-4, 4-8, 8-12. -/
def segsW : List TranscriptSegment :=
  [{ text := "Hello world.", start := 0, «end» := 4 },
   { text := "This works great.", start := 4, «end» := 8 },
   { text := "Buy now!", start := 8, «end» := 12 }]

/-- The first clip the segmenter produces on that scenario. -/
def clipW : ClipDefinition :=
  { clip_id := "src_clip_0000", start_time := 0, end_time := 8,
    transcript := "Hello world. This works great.", scene_indices := [] }

/-- A pipeline environment in which every external call succeeds (quality
analysis disabled, as `enable_quality_analysis = False` allows). -/
def envSuccess : PipelineEnv :=
  { source_id := "src"
    enable_quality_analysis := false
    fuel := 100
    download := .ok "/tmp/source.mp4"
    transcribe := .ok
      { full_text := "hi", language := "en", duration := 5,
        segments := [{ text := "hi", start := 0, «end» := 5 }], words := [] }
    detect_scenes := .ok
      [{ start_time := 0, end_time := 5, start_frame := 0, end_frame := 150,
         duration := 5 }]
    extract := fun cd => .ok
      { clip_id := cd.clip_id, start_time := cd.start_time,
        end_time := cd.end_time, duration := cd.end_time - cd.start_time,
        video_path := "v.mp4", thumbnail_path := "t.jpg",
        transcript := cd.transcript }
    upload := fun _ key => .ok ("https://r2/" ++ key)
    error_detect := fun _ => []
    audioFor := fun _ => {}
    rateFailure := fun _ => none
    embedApi := fun ts => .ok (ts.map fun _ => [1])
    sim := fun _ _ => 1
    webhook := fun _ => .response 200 }

/-- The same environment with every object upload failing. -/
def envUploadFail : PipelineEnv :=
  { envSuccess with upload := fun _ _ => .error "connection reset" }

end VCL

open VCL

/-- Evaluation of `build_groups` on a single pair with distinct clip ids:
the produced groups are governed by `classify_pair` at `same_source = true`
(the default the source leaves in place). -/
theorem build_groups_singleton (p : SimilarityPair) (cs : List ClipResult)
    (hne : p.clip_id_1 ≠ p.clip_id_2) :
    build_groups [p] cs =
      match classify_pair p true with
      | none => []
      | some t =>
        [{ group_id := "", group_type := t,
           clip_ids := [p.clip_id_1, p.clip_id_2],
           representative_clip_id := p.clip_id_1,
           similarity_scores := [(p.clip_id_2, p.similarity)] }] := by
  have h12 : (p.clip_id_1 == p.clip_id_2) = false := by
    simpa using hne
  have h21 : (p.clip_id_2 == p.clip_id_1) = false := by
    simpa using (Ne.symm hne)
  cases hc : classify_pair p true with
  | none =>
    simp [build_groups, hc]
  | some t =>
    simp [build_groups, hc, alSet, alGet, setAdd, connectedComponents, dfs,
      List.contains, h12, h21, hne, Ne.symm hne]

set_option maxRecDepth 100000 in
unseal Rat.add Rat.mul Rat.sub Rat.inv Rat.ofScientific in
/-- C6: for speaking metrics with words-per-minute exactly 150, filler rate
0 and hesitation rate 0 at the default sentence completion rate 1.0,
`score_speaking_quality` returns exactly 5.0 (the completion bonus pushes
the raw score to 5.2 and the final clamp caps it at 5.0); such metrics do
arise from `calculate_speaking_metrics` on a 60-second clip with 150 words,
no fillers and no hesitations. -/
theorem C6_score_speaking_quality_five :
    score_speaking_quality
      { words_per_minute := 150, filler_word_rate := 0, hesitation_rate := 0,
        sentence_completion_rate := 1 } = 5 ∧
    calculate_speaking_metrics clip60 words150 { clip_id := "c" } =
      { words_per_minute := 150, filler_word_rate := 0, hesitation_rate := 0,
        sentence_completion_rate := 1 } := by
  constructor
  · decide
  · decide

set_option maxRecDepth 100000 in
unseal Rat.add Rat.mul Rat.sub Rat.inv Rat.ofScientific in
/-- C3, counterexample: `build_groups` classifies every pair with
`classify_pair(pair)`, leaving `same_source` at its default `True`; it has
no source information at all.  A single pair at similarity 0.9 with time
gap 0 therefore yields a `multiple_takes` group no matter which source
videos the two clips come from, contradicting the claim that a ≥0.85 pair
from different source videos is never classified `multiple_takes` during
group building. -/
theorem C3_counterexample_build_groups_multiple_takes :
    (build_groups
      [{ clip_id_1 := "x", clip_id_2 := "y", similarity := 9/10,
         start_time_1 := 0, start_time_2 := 0 }] []).map ClipGroup.group_type =
    [GroupType.multiple_takes] := by decide

/-- `classify_pair` returns `duplicate` exactly on similarity ≥ 0.95. -/
theorem classify_pair_duplicate_iff (p : SimilarityPair) (s : Bool) :
    classify_pair p s = some GroupType.duplicate ↔
      p.similarity ≥ DUPLICATE_THRESHOLD := by
  simp only [classify_pair]
  split_ifs with h1 h2 h3 <;> simp_all

/-- `classify_pair` returns `multiple_takes` exactly on similarity in
`[0.85, 0.95)` with `same_source` and time gap at most 120 seconds. -/
theorem classify_pair_multiple_takes_iff (p : SimilarityPair) (s : Bool) :
    classify_pair p s = some GroupType.multiple_takes ↔
      (p.similarity < DUPLICATE_THRESHOLD ∧
       p.similarity ≥ MULTIPLE_TAKES_THRESHOLD ∧ s = true ∧
       |p.start_time_1 - p.start_time_2| ≤ MULTIPLE_TAKES_TIME_WINDOW) := by
  simp only [classify_pair]
  split_ifs with h1 h2 h3 <;> simp_all <;> try linarith

/-- `classify_pair` returns `same_topic` exactly on similarity in
`[0.75, 0.95)` when the `multiple_takes` test does not fire. -/
theorem classify_pair_same_topic_iff (p : SimilarityPair) (s : Bool) :
    classify_pair p s = some GroupType.same_topic ↔
      (p.similarity < DUPLICATE_THRESHOLD ∧
       ¬(p.similarity ≥ MULTIPLE_TAKES_THRESHOLD ∧ s = true ∧
         |p.start_time_1 - p.start_time_2| ≤ MULTIPLE_TAKES_TIME_WINDOW) ∧
       p.similarity ≥ SAME_TOPIC_THRESHOLD) := by
  simp only [classify_pair]
  split_ifs with h1 h2 h3 <;> simp_all <;> try linarith

/-- `classify_pair` yields no classification exactly below 0.75. -/
theorem classify_pair_none_iff (p : SimilarityPair) (s : Bool) :
    classify_pair p s = none ↔ p.similarity < SAME_TOPIC_THRESHOLD := by
  simp only [classify_pair]
  split_ifs with h1 h2 h3 <;>
    simp_all [DUPLICATE_THRESHOLD, MULTIPLE_TAKES_THRESHOLD,
      SAME_TOPIC_THRESHOLD] <;> try linarith

/-- C3 (amended): `classify_pair` is evaluated top-down — `duplicate` iff
similarity ≥ 0.95; else `multiple_takes` iff similarity ≥ 0.85 and
`same_source` and |start gap| ≤ 120 s; else `same_topic` iff similarity ≥
0.75; below all three, no classification.  However `build_groups` always
calls `classify_pair(pair)` with `same_source` left at its default `True`,
so during group building the source plays no role: the group types built
from a single pair with distinct clip ids are exactly
`classify_pair pair True` — a ≥0.85 pair within 120 s is classified
`multiple_takes` even when the clips come from different source videos. -/
theorem C3_classify_pair_top_down_but_build_groups_assumes_same_source
    (p : SimilarityPair) (s : Bool) :
    (classify_pair p s = some GroupType.duplicate ↔
      p.similarity ≥ DUPLICATE_THRESHOLD) ∧
    (classify_pair p s = some GroupType.multiple_takes ↔
      (p.similarity < DUPLICATE_THRESHOLD ∧
       p.similarity ≥ MULTIPLE_TAKES_THRESHOLD ∧ s = true ∧
       |p.start_time_1 - p.start_time_2| ≤ MULTIPLE_TAKES_TIME_WINDOW)) ∧
    (classify_pair p s = some GroupType.same_topic ↔
      (p.similarity < DUPLICATE_THRESHOLD ∧
       ¬(p.similarity ≥ MULTIPLE_TAKES_THRESHOLD ∧ s = true ∧
         |p.start_time_1 - p.start_time_2| ≤ MULTIPLE_TAKES_TIME_WINDOW) ∧
       p.similarity ≥ SAME_TOPIC_THRESHOLD)) ∧
    (classify_pair p s = none ↔ p.similarity < SAME_TOPIC_THRESHOLD) ∧
    (p.clip_id_1 ≠ p.clip_id_2 →
      (build_groups [p] []).map ClipGroup.group_type =
        (classify_pair p true).toList) := by
  refine ⟨classify_pair_duplicate_iff p s, classify_pair_multiple_takes_iff p s,
    classify_pair_same_topic_iff p s, classify_pair_none_iff p s, fun hne => ?_⟩
  rw [build_groups_singleton p [] hne]
  cases classify_pair p true <;> simp

set_option maxRecDepth 100000 in
unseal Rat.add Rat.mul Rat.sub Rat.inv Rat.ofScientific in
/-- Witness for C3's amended theorem at the concrete pair
`("x", "y", 0.9, 0, 0)` and `same_source = False`: classified `same_topic`
by `classify_pair`, yet grouped as `multiple_takes` by `build_groups`. -/
theorem C3_amended_witness :
    classify_pair
      { clip_id_1 := "x", clip_id_2 := "y", similarity := 9/10,
        start_time_1 := 0, start_time_2 := 0 } false =
      some GroupType.same_topic ∧
    (build_groups
      [{ clip_id_1 := "x", clip_id_2 := "y", similarity := 9/10,
         start_time_1 := 0, start_time_2 := 0 }] []).map ClipGroup.group_type =
      (classify_pair
        { clip_id_1 := "x", clip_id_2 := "y", similarity := 9/10,
          start_time_1 := 0, start_time_2 := 0 } true).toList := by
  constructor
  · exact (C3_classify_pair_top_down_but_build_groups_assumes_same_source
      { clip_id_1 := "x", clip_id_2 := "y", similarity := 9/10,
        start_time_1 := 0, start_time_2 := 0 } false).2.2.1.mpr
      (by norm_num [DUPLICATE_THRESHOLD, SAME_TOPIC_THRESHOLD])
  · exact (C3_classify_pair_top_down_but_build_groups_assumes_same_source
      { clip_id_1 := "x", clip_id_2 := "y", similarity := 9/10,
        start_time_1 := 0, start_time_2 := 0 } false).2.2.2.2 (by decide)

/-- C10: `compute_similarity` is total — if either vector has zero Euclidean
norm (equivalently, zero sum of squares) the result is 0.0 with no division
performed, and otherwise it is the dot product divided by the product of
the two norms. -/
theorem C10_compute_similarity_total (embedding1 embedding2 : List ℝ) :
    (((embedding1.map fun a => a * a).sum = 0 ∨
       (embedding2.map fun b => b * b).sum = 0) →
      compute_similarity embedding1 embedding2 = 0) ∧
    ((embedding1.map fun a => a * a).sum ≠ 0 →
     (embedding2.map fun b => b * b).sum ≠ 0 →
      compute_similarity embedding1 embedding2 =
        (List.zipWith (· * ·) embedding1 embedding2).sum /
          (Real.sqrt (embedding1.map fun a => a * a).sum *
           Real.sqrt (embedding2.map fun b => b * b).sum)) := by
  have hs1 : (0:ℝ) ≤ (embedding1.map fun a => a * a).sum := by
    apply List.sum_nonneg
    intro x hx
    obtain ⟨a, _, rfl⟩ := List.mem_map.mp hx
    exact mul_self_nonneg a
  have hs2 : (0:ℝ) ≤ (embedding2.map fun b => b * b).sum := by
    apply List.sum_nonneg
    intro x hx
    obtain ⟨b, _, rfl⟩ := List.mem_map.mp hx
    exact mul_self_nonneg b
  have e1 : Real.sqrt (embedding1.map fun a => a * a).sum = 0 ↔
      (embedding1.map fun a => a * a).sum = 0 := Real.sqrt_eq_zero hs1
  have e2 : Real.sqrt (embedding2.map fun b => b * b).sum = 0 ↔
      (embedding2.map fun b => b * b).sum = 0 := Real.sqrt_eq_zero hs2
  constructor
  · intro h
    unfold compute_similarity
    rw [if_pos]
    rcases h with h | h
    · exact Or.inl (e1.mpr h)
    · exact Or.inr (e2.mpr h)
  · intro h1 h2
    unfold compute_similarity
    rw [if_neg]
    push_neg
    exact ⟨fun hz => h1 (e1.mp hz), fun hz => h2 (e2.mp hz)⟩

/-- Witness for C10: the zero-norm case on `[0]` vs `[1]` returns 0, and the
regular case on `[1]` vs `[1]` returns 1. -/
theorem C10_witness :
    compute_similarity [(0:ℝ)] [(1:ℝ)] = 0 ∧
    compute_similarity [(1:ℝ)] [(1:ℝ)] = 1 := by
  constructor
  · exact (C10_compute_similarity_total [(0:ℝ)] [(1:ℝ)]).1
      (Or.inl (by norm_num))
  · have h := (C10_compute_similarity_total [(1:ℝ)] [(1:ℝ)]).2
      (by norm_num) (by norm_num)
    rw [h]
    norm_num

set_option maxRecDepth 100000 in
unseal Rat.add Rat.mul Rat.sub Rat.inv Rat.ofScientific in
/-- C5, counterexample: `generate_embeddings` does not filter clips by
transcript: a clip whose transcript is the empty string still gets exactly
one `ClipEmbedding` (here with an embedding service answering `[1]` for
every input text). -/
theorem C5_counterexample_empty_transcript_embedded :
    generate_embeddings (fun texts => .ok (texts.map fun _ => [1]))
      [{ clip_id := "c1", start_time := 0, end_time := 1, duration := 1,
         video_path := "v", thumbnail_path := "t", transcript := "" }] =
    .ok [{ clip_id := "c1", embedding := [1],
           model_name := "text-embedding-3-small" }] := by decide

/-- The chunks produced by `chunksGo` flatten back to the input preceded by
the open accumulator. -/
theorem chunksGo_flatten (n : ℕ) (l : List α) :
    ∀ acc : List α, (chunksGo n l acc).flatten = acc ++ l := by
  induction l with
  | nil =>
    intro acc
    by_cases h : acc.isEmpty <;>
      simp_all [chunksGo, List.isEmpty_iff]
  | cons x xs ih =>
    intro acc
    simp only [chunksGo]
    split_ifs with h <;> simp [ih]

/-- If every API call returns one vector per input text, the sequential
batch loop succeeds and returns one vector per text overall. -/
theorem embedChunks_ok (api : List String → Except String (List (List ℚ)))
    (hapi : ∀ ts, ∃ vs, api ts = .ok vs ∧ vs.length = ts.length)
    (chunks : List (List String)) :
    ∃ vs, embedChunks api chunks = .ok vs ∧
      vs.length = chunks.flatten.length := by
  induction chunks with
  | nil => exact ⟨[], rfl, by simp⟩
  | cons batch rest ih =>
    obtain ⟨bs, hb, hbl⟩ := hapi batch
    obtain ⟨rs, hr, hrl⟩ := ih
    exact ⟨bs ++ rs, by simp [embedChunks, hb, hr], by simp [hbl, hrl]⟩

/-- Pairing clips with vectors keeps the clip ids, in order. -/
theorem zipWith_embedding_clip_ids (clips : List ClipResult) :
    ∀ vs : List (List ℚ), clips.length ≤ vs.length →
    (List.zipWith
      (fun (clip : ClipResult) emb =>
        { clip_id := clip.clip_id, embedding := emb,
          model_name := DEFAULT_MODEL_NAME : ClipEmbedding })
      clips vs).map ClipEmbedding.clip_id = clips.map ClipResult.clip_id := by
  induction clips with
  | nil => intro vs _; simp
  | cons c cs ih =>
    intro vs h
    cases vs with
    | nil => simp at h
    | cons v vs =>
      simp only [List.length_cons, Nat.succ_le_succ_iff] at h
      simp [ih vs h]

/-- C5 (amended): whenever the embedding service returns one vector per
input text, `generate_embeddings` produces exactly one `ClipEmbedding` per
input clip, in order and with matching clip ids — clips with empty
transcripts included; no transcript-based filtering happens. -/
theorem C5_amended_one_embedding_per_clip
    (api : List String → Except String (List (List ℚ)))
    (clips : List ClipResult)
    (hapi : ∀ ts, ∃ vs, api ts = .ok vs ∧ vs.length = ts.length) :
    ∃ es, generate_embeddings api clips = .ok es ∧
      es.map ClipEmbedding.clip_id = clips.map ClipResult.clip_id := by
  by_cases hc : clips.isEmpty
  · rw [List.isEmpty_iff] at hc
    subst hc
    exact ⟨[], rfl, by simp⟩
  · obtain ⟨vs, hv, hvl⟩ := embedChunks_ok api hapi
      (chunksOf EMBEDDING_BATCH_SIZE (clips.map (·.transcript)))
    have hlen : vs.length = clips.length := by
      rw [hvl, chunksOf, chunksGo_flatten]
      simp
    refine ⟨_, ?_, zipWith_embedding_clip_ids clips vs (le_of_eq hlen.symm)⟩
    simp only [generate_embeddings, hc, if_false, Bool.false_eq_true,
      embedBatches, hv]
    rw [if_neg (by omega)]

/-- Witness for C5's amended theorem: a well-behaved embedding service and
one clip with a non-empty transcript. -/
theorem C5_amended_witness :
    ∃ es, generate_embeddings (fun texts => .ok (texts.map fun _ => [1]))
      [{ clip_id := "cA", start_time := 0, end_time := 1, duration := 1,
         video_path := "v", thumbnail_path := "t",
         transcript := "hello" }] = .ok es ∧
      es.map ClipEmbedding.clip_id = ["cA"] := by
  have h := C5_amended_one_embedding_per_clip
    (fun texts => .ok (texts.map fun _ => [1]))
    [{ clip_id := "cA", start_time := 0, end_time := 1, duration := 1,
       video_path := "v", thumbnail_path := "t", transcript := "hello" }]
    (fun ts => ⟨ts.map fun _ => [1], rfl, by simp⟩)
  simpa using h

/-- C9: `rate_clips` returns exactly one `QualityRating` per input
`ClipResult`, in input order, with matching clip ids; a clip whose rating
task raised receives the neutral default rating (all three scores 3.0)
instead of being dropped. -/
theorem C9_rate_clips_one_rating_per_clip
    (audioFor : ClipResult → AudioQualityMetrics)
    (taskFailure : ClipResult → Option String) (clips : List ClipResult)
    (transcript : TranscriptResult) (error_analyses : List ErrorAnalysis) :
    (rate_clips audioFor taskFailure clips transcript error_analyses).map
        QualityRating.clip_id = clips.map ClipResult.clip_id ∧
    (∀ i : ℕ, ∀ c : ClipResult, clips[i]? = some c →
      (taskFailure c).isSome = true →
      (rate_clips audioFor taskFailure clips transcript error_analyses)[i]? =
        some (defaultRating c.clip_id)) := by
  constructor
  · simp only [rate_clips, List.map_map]
    apply List.map_congr_left
    intro c _
    cases h : taskFailure c <;> simp [h, defaultRating, rate_clip]
  · intro i c hget hfail
    obtain ⟨msg, hmsg⟩ := Option.isSome_iff_exists.mp hfail
    simp [rate_clips, List.getElem?_map, hget, hmsg]

/-- Witness for C9: two clips, the second one's rating task fails; both get
exactly one rating, the second the neutral default. -/
theorem C9_witness :
    (rate_clips (fun _ => {}) (fun c => if c.clip_id == "b" then some "boom" else none)
      [{ clip_id := "g", start_time := 0, end_time := 1, duration := 1,
         video_path := "v", thumbnail_path := "t", transcript := "x" },
       { clip_id := "b", start_time := 0, end_time := 1, duration := 1,
         video_path := "v", thumbnail_path := "t", transcript := "y" }]
      { full_text := "", language := "en", duration := 2, segments := [],
        words := [] } []).map QualityRating.clip_id = ["g", "b"] ∧
    (rate_clips (fun _ => {}) (fun c => if c.clip_id == "b" then some "boom" else none)
      [{ clip_id := "g", start_time := 0, end_time := 1, duration := 1,
         video_path := "v", thumbnail_path := "t", transcript := "x" },
       { clip_id := "b", start_time := 0, end_time := 1, duration := 1,
         video_path := "v", thumbnail_path := "t", transcript := "y" }]
      { full_text := "", language := "en", duration := 2, segments := [],
        words := [] } [])[1]? = some (defaultRating "b") := by
  constructor
  · have h := (C9_rate_clips_one_rating_per_clip (fun _ => {})
      (fun c => if c.clip_id == "b" then some "boom" else none)
      [{ clip_id := "g", start_time := 0, end_time := 1, duration := 1,
         video_path := "v", thumbnail_path := "t", transcript := "x" },
       { clip_id := "b", start_time := 0, end_time := 1, duration := 1,
         video_path := "v", thumbnail_path := "t", transcript := "y" }]
      { full_text := "", language := "en", duration := 2, segments := [],
        words := [] } []).1
    simpa using h
  · exact (C9_rate_clips_one_rating_per_clip (fun _ => {})
      (fun c => if c.clip_id == "b" then some "boom" else none)
      [{ clip_id := "g", start_time := 0, end_time := 1, duration := 1,
         video_path := "v", thumbnail_path := "t", transcript := "x" },
       { clip_id := "b", start_time := 0, end_time := 1, duration := 1,
         video_path := "v", thumbnail_path := "t", transcript := "y" }]
      { full_text := "", language := "en", duration := 2, segments := [],
        words := [] } []).2 1
      { clip_id := "b", start_time := 0, end_time := 1, duration := 1,
        video_path := "v", thumbnail_path := "t", transcript := "y" }
      (by rfl) (by rfl)

/-- Closed form of the chunk loop when every chunk extraction succeeds: the
final accumulators are the per-chunk results, shifted by each chunk's start
offset and concatenated in chunk order (failed chunk transcriptions
contribute nothing). -/
theorem chunkLoop_closed_form (chunkExtract : ℕ → Except String Unit)
    (chunkTranscribe : ℕ → Except String TranscriptResult) (idxs : List ℕ)
    (hce : ∀ i ∈ idxs, chunkExtract i = .ok ()) :
    ∀ st : ChunkState, ∃ lang : Option String,
      chunkLoop chunkExtract chunkTranscribe idxs st = .ok
        { all_segments := st.all_segments ++ idxs.flatMap fun i =>
            match chunkTranscribe i with
            | .error _ => []
            | .ok r => r.segments.map (shiftSegment ((i : ℚ) * CHUNK_DURATION_SECONDS))
          all_words := st.all_words ++ idxs.flatMap fun i =>
            match chunkTranscribe i with
            | .error _ => []
            | .ok r => r.words.map (shiftWord ((i : ℚ) * CHUNK_DURATION_SECONDS))
          all_text_parts := st.all_text_parts ++ idxs.flatMap fun i =>
            match chunkTranscribe i with
            | .error _ => []
            | .ok r => [r.full_text]
          detected_language := lang } := by
  induction idxs with
  | nil =>
    intro st
    exact ⟨st.detected_language, by simp [chunkLoop]⟩
  | cons i rest ih =>
    intro st
    have hi : chunkExtract i = .ok () := hce i (by simp)
    have hrest : ∀ j ∈ rest, chunkExtract j = .ok () := fun j hj =>
      hce j (by simp [hj])
    cases hct : chunkTranscribe i with
    | error e =>
      obtain ⟨lang, hl⟩ := ih hrest st
      exact ⟨lang, by simp [chunkLoop, hi, hct, hl]⟩
    | ok r =>
      obtain ⟨lang, hl⟩ := ih hrest
        { all_segments := st.all_segments ++
            r.segments.map (shiftSegment ((i : ℚ) * CHUNK_DURATION_SECONDS))
          all_words := st.all_words ++
            r.words.map (shiftWord ((i : ℚ) * CHUNK_DURATION_SECONDS))
          all_text_parts := st.all_text_parts ++ [r.full_text]
          detected_language :=
            match st.detected_language with
            | some l => some l
            | none => some r.language }
      refine ⟨lang, ?_⟩
      simp only [chunkLoop, hi, hct, hl]
      congr 1
      simp [hct]

/-- C7: on an audio file above the 25MB ceiling (with the duration probe
succeeding and every chunk extraction succeeding), chunked transcription
merges per-chunk results by adding the chunk's start offset `i * 600` to
every contained segment and word timestamp, and concatenates segments,
words and text parts in chunk order. -/
theorem C7_transcribe_chunked_offsets (file_size_mb d : ℚ)
    (direct : Except String TranscriptResult)
    (chunkExtract : ℕ → Except String Unit)
    (chunkTranscribe : ℕ → Except String TranscriptResult)
    (language : Option String)
    (hsize : file_size_mb > MAX_AUDIO_SIZE_MB)
    (hce : ∀ i, chunkExtract i = .ok ()) :
    ∃ res : TranscriptResult,
      transcribe_chunked file_size_mb direct (.ok d) chunkExtract
        chunkTranscribe language = .ok res ∧
      res.segments = (List.range
          ((Int.ceil (d / CHUNK_DURATION_SECONDS)).toNat)).flatMap
        (fun i =>
          match chunkTranscribe i with
          | .error _ => []
          | .ok r => r.segments.map
              (shiftSegment ((i : ℚ) * CHUNK_DURATION_SECONDS))) ∧
      res.words = (List.range
          ((Int.ceil (d / CHUNK_DURATION_SECONDS)).toNat)).flatMap
        (fun i =>
          match chunkTranscribe i with
          | .error _ => []
          | .ok r => r.words.map
              (shiftWord ((i : ℚ) * CHUNK_DURATION_SECONDS))) ∧
      res.full_text = String.intercalate " "
        ((List.range ((Int.ceil (d / CHUNK_DURATION_SECONDS)).toNat)).flatMap
          (fun i =>
            match chunkTranscribe i with
            | .error _ => []
            | .ok r => [r.full_text])) ∧
      res.duration = d := by
  obtain ⟨lang, hl⟩ := chunkLoop_closed_form chunkExtract chunkTranscribe
    (List.range ((Int.ceil (d / CHUNK_DURATION_SECONDS)).toNat))
    (fun i _ => hce i) { detected_language := language }
  simp only [List.nil_append] at hl
  have hmain : transcribe_chunked file_size_mb direct (.ok d) chunkExtract
      chunkTranscribe language = .ok
        { full_text := String.intercalate " "
            ((List.range ((Int.ceil (d / CHUNK_DURATION_SECONDS)).toNat)).flatMap
              (fun i =>
                match chunkTranscribe i with
                | .error _ => []
                | .ok r => [r.full_text]))
          language := lang.getD "en"
          duration := d
          segments := (List.range
              ((Int.ceil (d / CHUNK_DURATION_SECONDS)).toNat)).flatMap
            (fun i =>
              match chunkTranscribe i with
              | .error _ => []
              | .ok r => r.segments.map
                  (shiftSegment ((i : ℚ) * CHUNK_DURATION_SECONDS)))
          words := (List.range
              ((Int.ceil (d / CHUNK_DURATION_SECONDS)).toNat)).flatMap
            (fun i =>
              match chunkTranscribe i with
              | .error _ => []
              | .ok r => r.words.map
                  (shiftWord ((i : ℚ) * CHUNK_DURATION_SECONDS))) } := by
    simp only [transcribe_chunked, if_neg (not_le.mpr hsize), hl]
  exact ⟨_, hmain, rfl, rfl, rfl, rfl⟩

set_option maxRecDepth 100000 in
unseal Rat.add Rat.mul Rat.sub Rat.inv Rat.ofScientific in
/-- Witness for C7: a 30MB file of duration 1200 s gives two 600 s chunks;
the single word of each chunk is shifted by 0 and 600 respectively and the
text parts are joined in chunk order. -/
theorem C7_witness :
    ∃ res : TranscriptResult,
      transcribe_chunked 30 (.error "unused") (.ok 1200) (fun _ => .ok ())
        (fun _ => .ok
          { full_text := "txt", language := "en", duration := 600,
            segments := [], words := [{ word := "w", start := 1, «end» := 2 }] })
        none = .ok res ∧
      res.words = [{ word := "w", start := 1, «end» := 2 },
                   { word := "w", start := 601, «end» := 602 }] ∧
      res.full_text = "txt txt" := by
  obtain ⟨res, hmain, _hseg, hw, ht, _hd⟩ := C7_transcribe_chunked_offsets
    30 1200 (.error "unused") (fun _ => .ok ())
    (fun _ => .ok
      { full_text := "txt", language := "en", duration := 600,
        segments := [], words := [{ word := "w", start := 1, «end» := 2 }] })
    none (by norm_num [MAX_AUDIO_SIZE_MB]) (fun _ => rfl)
  refine ⟨res, hmain, ?_, ?_⟩
  · rw [hw]
    decide
  · rw [ht]
    decide

/-- Every clip emitted by the even-split loop passes its explicit
`clip_end - current_start ≥ min_duration` guard. -/
theorem splitEvenLoop_min_duration (source_id : String)
    (min_duration max_duration end_time : ℚ) :
    ∀ (fuel : ℕ) (current_start : ℚ) (clip_index : ℕ),
    ∀ c ∈ splitEvenLoop source_id min_duration max_duration end_time fuel
        current_start clip_index,
      min_duration ≤ c.end_time - c.start_time := by
  intro fuel
  induction fuel with
  | zero => intro cs ci c hc; simp [splitEvenLoop] at hc
  | succ n ih =>
    intro cs ci c hc
    simp only [splitEvenLoop] at hc
    split_ifs at hc with h1 h2
    · rcases List.mem_cons.mp hc with rfl | hc
      · simpa using h2
      · exact ih _ _ c hc
    · exact ih _ _ c hc
    · simp at hc

/-- Every clip emitted by the segment-aligned split loop passes its explicit
`clip_end - current_start ≥ min_duration` guard. -/
theorem splitSegsLoop_min_duration (relevant_segments : List TranscriptSegment)
    (min_duration max_duration end_time : ℚ) (source_id : String) :
    ∀ (fuel : ℕ) (current_start : ℚ) (segment_idx clip_index : ℕ),
    ∀ c ∈ splitSegsLoop relevant_segments min_duration max_duration end_time
        source_id fuel current_start segment_idx clip_index,
      min_duration ≤ c.end_time - c.start_time := by
  intro fuel
  induction fuel with
  | zero => intro cs si ci c hc; simp [splitSegsLoop] at hc
  | succ n ih =>
    intro cs si ci c hc
    simp only [splitSegsLoop] at hc
    split_ifs at hc with h1 h2
    · rcases List.mem_cons.mp hc with rfl | hc
      · simpa using h2
      · exact ih _ _ _ c hc
    · exact ih _ _ _ c hc
    · simp at hc

/-- Every clip emitted by `_split_long_scene` has duration at least
`min_duration`. -/
theorem split_long_scene_min_duration (fuel : ℕ) (start_time end_time : ℚ)
    (transcript_segments : List TranscriptSegment)
    (min_duration max_duration : ℚ) (source_id : String) (start_index : ℕ) :
    ∀ c ∈ split_long_scene fuel start_time end_time transcript_segments
        min_duration max_duration source_id start_index,
      min_duration ≤ c.end_time - c.start_time := by
  intro c hc
  simp only [split_long_scene] at hc
  split_ifs at hc with h
  · exact splitEvenLoop_min_duration source_id min_duration max_duration
      end_time fuel start_time start_index c hc
  · exact splitSegsLoop_min_duration _ min_duration max_duration end_time
      source_id fuel start_time 0 start_index c hc

/-- Every clip emitted by the scene loop has duration at least
`min_duration`, provided every scene's stored `duration` field equals
`end_time - start_time` (the invariant `SceneDetector.detect_scenes`
establishes). -/
theorem createClipsLoop_min_duration (all_scenes : List SceneBoundary)
    (transcript_segments : List TranscriptSegment)
    (min_duration max_duration : ℚ) (source_id : String) (fuel : ℕ) :
    ∀ (scenes : List SceneBoundary) (clip_index : ℕ),
    (∀ s ∈ scenes, s.duration = s.end_time - s.start_time) →
    ∀ c ∈ createClipsLoop all_scenes transcript_segments min_duration
        max_duration source_id fuel scenes clip_index,
      min_duration ≤ c.end_time - c.start_time := by
  intro scenes
  induction scenes with
  | nil => intro ci _ c hc; simp [createClipsLoop] at hc
  | cons scene rest ih =>
    intro ci hsc c hc
    simp only [createClipsLoop] at hc
    split_ifs at hc with h1 h2
    · exact ih _ (fun s hs => hsc s (List.mem_cons_of_mem _ hs)) c hc
    · rcases List.mem_cons.mp hc with rfl | hc
      · have hd := hsc scene (List.mem_cons_self scene rest)
        simp only []
        rw [← hd]
        exact not_lt.mp h1
      · exact ih _ (fun s hs => hsc s (List.mem_cons_of_mem _ hs)) c hc
    · rcases List.mem_append.mp hc with hc | hc
      · exact split_long_scene_min_duration fuel scene.start_time
          scene.end_time transcript_segments min_duration max_duration
          source_id ci c hc
      · exact ih _ (fun s hs => hsc s (List.mem_cons_of_mem _ hs)) c hc

/-- C2: for every scene list satisfying the detector's invariant
`duration = end_time - start_time`, every transcript-segment list and every
`0 < min_duration ≤ max_duration`, every `ClipDefinition` returned by
`create_clip_definitions` has `end_time - start_time ≥ min_duration` (the
whole-video fallback clip is fabricated by the caller, not here). -/
theorem C2_create_clip_definitions_min_duration (fuel : ℕ)
    (scenes : List SceneBoundary)
    (transcript_segments : List TranscriptSegment)
    (min_duration max_duration : ℚ) (source_id : String)
    (hmin : 0 < min_duration) (hminmax : min_duration ≤ max_duration)
    (hscenes : ∀ s ∈ scenes, s.duration = s.end_time - s.start_time) :
    ∀ c ∈ create_clip_definitions fuel scenes transcript_segments
        min_duration max_duration source_id,
      min_duration ≤ c.end_time - c.start_time := by
  intro c hc
  exact createClipsLoop_min_duration scenes transcript_segments min_duration
    max_duration source_id fuel scenes 0 hscenes c hc

set_option maxRecDepth 1000000 in
unseal Rat.add Rat.mul Rat.sub Rat.inv Rat.ofScientific in
/-- Witness for C2: the spec's end-to-end scenario (one 12 s scene,
segments 0-4/4-8/8-12, `min_duration = 3`, `max_duration = 6`) — the first
produced clip spans `[0, 8]` and indeed has duration ≥ 3. -/
theorem C2_witness :
    clipW ∈ create_clip_definitions 100 scenesW segsW 3 6 "src" ∧
    (3 : ℚ) ≤ clipW.end_time - clipW.start_time := by
  have hmem : clipW ∈ create_clip_definitions 100 scenesW segsW 3 6 "src" := by
    decide
  exact ⟨hmem, C2_create_clip_definitions_min_duration 100 scenesW segsW 3 6
    "src" (by norm_num) (by norm_num) (by decide) clipW hmem⟩

/-- `upload_clips` returns `.ok` exactly when every issued upload task
succeeded; one failed object upload makes it raise `PipelineError`. -/
theorem upload_clips_isOk_iff (upload : String → String → Except String String)
    (clips : List ClipResult) (source_id : String) :
    (upload_clips upload clips source_id).isOk = true ↔
      ∀ t ∈ uploadTasks clips source_id, (upload t.1 t.2).isOk = true := by
  simp only [upload_clips]
  split_ifs with h
  · simp only [Except.isOk, Except.toBool, Bool.false_eq_true, false_iff]
    intro hall
    have hne : (((uploadTasks clips source_id).map fun t =>
        upload t.1 t.2).filter fun r => !r.isOk) ≠ [] := by
      intro hnil
      rw [hnil] at h
      simp at h
    obtain ⟨r, hr⟩ := List.exists_mem_of_ne_nil _ hne
    have hr2 := List.mem_filter.mp hr
    obtain ⟨t, ht, rfl⟩ := List.mem_map.mp hr2.1
    have := hall t ht
    cases hu : upload t.1 t.2 with
    | ok v => simp [hu, Except.isOk, Except.toBool] at hr2
    | error e => rw [hu] at this; simp at this
  · simp only [Except.isOk, Except.toBool, true_iff]
    intro t ht
    have hnil : (((uploadTasks clips source_id).map fun t =>
        upload t.1 t.2).filter fun r => !r.isOk) = [] := by
      by_contra hne
      exact h (by
        have := List.length_pos.mpr hne
        omega)
    have := List.filter_eq_nil_iff.mp hnil _
      (List.mem_map_of_mem (fun t => upload t.1 t.2) ht)
    simpa using this

/-- A successful `runStages` outcome has status `completed` and implies
every upload task of the job succeeded. -/
theorem runStages_ok_cases (env : PipelineEnv) (r : PipelineResultWithQuality)
    (h : runStages env = .ok r) :
    r.status = ProcessingStatus.completed ∧
    (∀ t ∈ pipelineUploadTasks env, (env.upload t.1 t.2).isOk = true) := by
  unfold runStages at h
  cases hd : env.download with
  | error e => rw [hd] at h; simp at h
  | ok vp =>
  rw [hd] at h
  cases ht : env.transcribe with
  | error e => rw [ht] at h; simp at h
  | ok transcript =>
  rw [ht] at h
  cases hs : env.detect_scenes with
  | error e => rw [hs] at h; simp at h
  | ok scenes =>
  rw [hs] at h
  simp only [] at h
  by_cases hce : (create_clip_definitions env.fuel scenes transcript.segments
      env.min_clip_duration env.max_clip_duration env.source_id).isEmpty
  · rw [if_pos hce] at h; simp at h
  · rw [if_neg hce] at h
    cases hu : upload_clips env.upload
        (split_video_results env.extract (create_clip_definitions env.fuel
          scenes transcript.segments env.min_clip_duration
          env.max_clip_duration env.source_id)) env.source_id with
    | error e => rw [hu] at h; simp at h
    | ok upload_results =>
    rw [hu] at h
    have htasks : ∀ t ∈ pipelineUploadTasks env,
        (env.upload t.1 t.2).isOk = true := by
      have hok : (upload_clips env.upload (pipelineClipResults env)
          env.source_id).isOk = true := by
        simp only [pipelineClipResults, pipelineClipDefinitions, ht, hs, hu,
          Except.isOk, Except.toBool]
      exact (upload_clips_isOk_iff env.upload (pipelineClipResults env)
        env.source_id).mp hok
    refine ⟨?_, htasks⟩
  -- remaining: status of the final record
    by_cases hq : env.enable_quality_analysis
    · rw [if_pos hq] at h
      cases hg : generate_embeddings env.embedApi
          (split_video_results env.extract (create_clip_definitions env.fuel
            scenes transcript.segments env.min_clip_duration
            env.max_clip_duration env.source_id)) with
      | error e => rw [hg] at h; simp at h
      | ok embeddings =>
        rw [hg] at h
        simp only [] at h
        obtain rfl := Except.ok.inj h.symm
        rfl
    · rw [if_neg hq] at h
      simp only [] at h
      obtain rfl := Except.ok.inj h.symm
      rfl

/-- If any upload task of the job fails, `runStages` raises. -/
theorem runStages_error_of_upload_failure (env : PipelineEnv)
    (hfail : ∃ t ∈ pipelineUploadTasks env, (env.upload t.1 t.2).isOk = false) :
    ∃ e, runStages env = .error e := by
  unfold runStages
  cases hd : env.download with
  | error e => exact ⟨e, rfl⟩
  | ok vp =>
  cases ht : env.transcribe with
  | error e => exact ⟨e, rfl⟩
  | ok transcript =>
  cases hs : env.detect_scenes with
  | error e => exact ⟨e, rfl⟩
  | ok scenes =>
  simp only []
  by_cases hce : (create_clip_definitions env.fuel scenes transcript.segments
      env.min_clip_duration env.max_clip_duration env.source_id).isEmpty
  · rw [if_pos hce]
    exact ⟨_, rfl⟩
  · rw [if_neg hce]
    have hnotok : ¬(upload_clips env.upload (pipelineClipResults env)
        env.source_id).isOk = true := by
      intro hok
      obtain ⟨t, ht', hf⟩ := hfail
      have := (upload_clips_isOk_iff env.upload (pipelineClipResults env)
        env.source_id).mp hok t ht'
      rw [this] at hf
      exact absurd hf (by simp)
    cases hu : upload_clips env.upload
        (split_video_results env.extract (create_clip_definitions env.fuel
          scenes transcript.segments env.min_clip_duration
          env.max_clip_duration env.source_id)) env.source_id with
    | error e => exact ⟨e, rfl⟩
    | ok upload_results =>
      exfalso
      apply hnotok
      simp only [pipelineClipResults, pipelineClipDefinitions, ht, hs, hu,
        Except.isOk, Except.toBool]

/-- C1: upload is all-or-nothing — a returned (necessarily `completed`)
result implies every one of the job's per-clip video and thumbnail uploads
succeeded, and conversely any failed upload task makes `process_video`
raise `PipelineError`; there is no `completed` outcome with missing
uploaded assets. -/
theorem C1_upload_all_or_nothing (env : PipelineEnv) :
    (∀ r, process_video env = .ok r → r.status = ProcessingStatus.completed ∧
      ∀ t ∈ pipelineUploadTasks env, (env.upload t.1 t.2).isOk = true) ∧
    ((∃ t ∈ pipelineUploadTasks env, (env.upload t.1 t.2).isOk = false) →
      ∃ e, process_video env = .error e) := by
  constructor
  · intro r hr
    unfold process_video at hr
    cases hrs : runStages env with
    | error e => rw [hrs] at hr; simp at hr
    | ok r0 =>
      rw [hrs] at hr
      simp only [] at hr
      obtain rfl := Except.ok.inj hr
      exact runStages_ok_cases env r0 hrs
  · intro hfail
    obtain ⟨e, he⟩ := runStages_error_of_upload_failure env hfail
    exact ⟨"Pipeline failed: " ++ e, by unfold process_video; rw [he]⟩

/-- The webhook retry loop returns `False` when every attempt in the window
fails (no response with status < 400). -/
theorem callWebhookLoop_all_fail (attempts : ℕ → WebhookAttemptResult) :
    ∀ (n base : ℕ),
    (∀ i, base ≤ i → i < base + n → ∀ code,
      attempts i = .response code → 400 ≤ code) →
    callWebhookLoop attempts base n = false := by
  intro n
  induction n with
  | zero => intro base _; rfl
  | succ m ih =>
    intro base h
    simp only [callWebhookLoop]
    cases ha : attempts base with
    | response c =>
      show (if c < 400 then true else callWebhookLoop attempts (base + 1) m) =
        false
      rw [if_neg (by have := h base (le_refl _) (by omega) c ha; omega)]
      exact ih (base + 1) (fun i h1 h2 => h i (by omega) (by omega))
    | requestError msg =>
      show callWebhookLoop attempts (base + 1) m = false
      exact ih (base + 1) (fun i h1 h2 => h i (by omega) (by omega))

/-- C8: webhook delivery failure never changes the job's final status — any
returned result has status `completed`; the whole outcome of
`process_video` is independent of the webhook oracle (its boolean result is
discarded, and a `False` return raises nothing); and when all three
delivery attempts fail, `call_webhook` indeed returns `False`. -/
theorem C8_webhook_failure_never_changes_result (env : PipelineEnv) :
    (∀ r, process_video env = .ok r → r.status = ProcessingStatus.completed) ∧
    (∀ attempts : ℕ → WebhookAttemptResult,
      process_video { env with webhook := attempts } = process_video env) ∧
    (∀ attempts : ℕ → WebhookAttemptResult,
      (∀ i, i < 3 → ∀ code, attempts i = .response code → 400 ≤ code) →
      call_webhook attempts 3 = false) := by
  refine ⟨?_, ?_, ?_⟩
  · intro r hr
    unfold process_video at hr
    cases hrs : runStages env with
    | error e => rw [hrs] at hr; simp at hr
    | ok r0 =>
      rw [hrs] at hr
      simp only [] at hr
      obtain rfl := Except.ok.inj hr
      exact (runStages_ok_cases env r0 hrs).1
  · intro attempts
    rfl
  · intro attempts h
    exact callWebhookLoop_all_fail attempts 3 0
      (fun i h1 h2 code hc => h i (by omega) code hc)

set_option maxRecDepth 1000000 in
unseal Rat.add Rat.mul Rat.sub Rat.inv Rat.ofScientific in
/-- Witness for C1: with every upload failing the job raises
`PipelineError`; with every call succeeding the job completes and all its
upload tasks are verified successful. -/
theorem C1_witness :
    (∃ e, process_video envUploadFail = .error e) ∧
    (∃ r, process_video envSuccess = .ok r ∧
      r.status = ProcessingStatus.completed) ∧
    (pipelineUploadTasks envSuccess).all
      (fun t => (envSuccess.upload t.1 t.2).isOk) = true := by
  refine ⟨(C1_upload_all_or_nothing envUploadFail).2 (by decide), ?_, ?_⟩
  · have hok : (process_video envSuccess).isOk = true := by decide
    cases hr : process_video envSuccess with
    | error e => rw [hr] at hok; simp [Except.isOk, Except.toBool] at hok
    | ok r =>
      exact ⟨r, rfl, ((C1_upload_all_or_nothing envSuccess).1 r hr).1⟩
  · have hok : (process_video envSuccess).isOk = true := by decide
    cases hr : process_video envSuccess with
    | error e => rw [hr] at hok; simp [Except.isOk, Except.toBool] at hok
    | ok r =>
      exact List.all_eq_true.mpr
        (fun t ht => ((C1_upload_all_or_nothing envSuccess).1 r hr).2 t ht)

set_option maxRecDepth 1000000 in
unseal Rat.add Rat.mul Rat.sub Rat.inv Rat.ofScientific in
/-- Witness for C8: a webhook endpoint that is down for all three attempts
leaves the successful job's result byte-for-byte unchanged and `completed`,
while `call_webhook` reports `False`. -/
theorem C8_witness :
    process_video { envSuccess with webhook := fun _ => .requestError "down" } =
      process_video envSuccess ∧
    call_webhook (fun _ => .requestError "down") 3 = false ∧
    (∃ r, process_video
        { envSuccess with webhook := fun _ => .requestError "down" } = .ok r ∧
      r.status = ProcessingStatus.completed) := by
  refine ⟨(C8_webhook_failure_never_changes_result envSuccess).2.1 _,
    (C8_webhook_failure_never_changes_result envSuccess).2.2 _
      (fun i _ code hc => by simp at hc), ?_⟩
  have hok : (process_video
      { envSuccess with webhook := fun _ => .requestError "down" }).isOk =
      true := by decide
  cases hr : process_video
      { envSuccess with webhook := fun _ => .requestError "down" } with
  | error e => rw [hr] at hok; simp [Except.isOk, Except.toBool] at hok
  | ok r =>
    exact ⟨r, rfl, (C8_webhook_failure_never_changes_result
      { envSuccess with webhook := fun _ => .requestError "down" }).1 r hr⟩

/-- `sortedKey` returns one of the two orientations of its arguments. -/
theorem sortedKey_cases (x y : String) :
    sortedKey x y = (x, y) ∨ sortedKey x y = (y, x) := by
  unfold sortedKey
  split_ifs <;> simp

/-- The three unordered pairs over three distinct ids are pairwise distinct
keys (all `BEq` directions used by the dict operations). -/
theorem sortedKey_distinct {a b c : String} (hab : a ≠ b) (hac : a ≠ c)
    (hbc : b ≠ c) :
    (sortedKey a b == sortedKey b c) = false ∧
    (sortedKey b c == sortedKey a b) = false ∧
    (sortedKey a b == sortedKey a c) = false ∧
    (sortedKey a c == sortedKey a b) = false ∧
    (sortedKey b c == sortedKey a c) = false ∧
    (sortedKey a c == sortedKey b c) = false := by
  rcases sortedKey_cases a b with h1 | h1 <;>
    rcases sortedKey_cases b c with h2 | h2 <;>
      rcases sortedKey_cases a c with h3 | h3 <;>
        simp [h1, h2, h3, Prod.ext_iff, hab, hac, hbc, Ne.symm hab,
          Ne.symm hac, Ne.symm hbc]

/-- A list permuting a two-element list is one of its two orderings. -/
theorem perm_pair_cases {α : Type _} {xs : List α} {x y : α}
    (h : xs.Perm [x, y]) : xs = [x, y] ∨ xs = [y, x] := by
  have hl : xs.length = 2 := by simpa using h.length_eq
  match xs, hl with
  | [u, v], _ =>
    have hu : u = x ∨ u = y := by
      have hm : u ∈ [x, y] := h.mem_iff.mp (by simp)
      simpa using hm
    rcases hu with hu | hu
    · have hv := List.perm_singleton.mp (hu ▸ h).cons_inv
      left
      rw [hu, hv]
    · have h2 := ((hu ▸ h).trans (List.Perm.swap y x [])).cons_inv
      have hv := List.perm_singleton.mp h2
      right
      rw [hu, hv]

/-- A list permuting a three-element list is one of its six orderings. -/
theorem perm_triple_cases {α : Type _} {xs : List α} {x y z : α}
    (h : xs.Perm [x, y, z]) :
    xs = [x, y, z] ∨ xs = [x, z, y] ∨ xs = [y, x, z] ∨ xs = [y, z, x] ∨
      xs = [z, x, y] ∨ xs = [z, y, x] := by
  have hl : xs.length = 3 := by simpa using h.length_eq
  match xs, hl with
  | [u, v, w], _ =>
    have hu : u = x ∨ u = y ∨ u = z := by
      have hm : u ∈ [x, y, z] := h.mem_iff.mp (by simp)
      simpa using hm
    rcases hu with hu | hu | hu
    · rcases perm_pair_cases (hu ▸ h).cons_inv with h2 | h2 <;>
        (simp only [List.cons.injEq, and_true] at h2
         simp [hu, h2.1, h2.2])
    · have h4 := ((hu ▸ h).trans (List.Perm.swap y x [z])).cons_inv
      rcases perm_pair_cases h4 with h2 | h2 <;>
        (simp only [List.cons.injEq, and_true] at h2
         simp [hu, h2.1, h2.2])
    · have h5 := ((hu ▸ h).trans
        ((List.Perm.cons x (List.Perm.swap z y [])).trans
          (List.Perm.swap z x [y]))).cons_inv
      rcases perm_pair_cases h5 with h2 | h2 <;>
        (simp only [List.cons.injEq, and_true] at h2
         simp [hu, h2.1, h2.2])

set_option maxHeartbeats 2000000 in
/-- C4: three clips whose three pairwise similarity pairs all have
similarity 0.97 (whatever the clip start times) form exactly one group, of
type `duplicate`, whose members are exactly those three clips — and this
holds for every insertion order of the three input pairs. -/
theorem C4_pairwise_097_single_duplicate_group (a b c : String)
    (hab : a ≠ b) (hac : a ≠ c) (hbc : b ≠ c) (s1 s2 s3 s4 s5 s6 : ℚ)
    (ps : List SimilarityPair) (clips : List ClipResult)
    (hperm : ps.Perm
      [{ clip_id_1 := a, clip_id_2 := b, similarity := 0.97,
         start_time_1 := s1, start_time_2 := s2 },
       { clip_id_1 := b, clip_id_2 := c, similarity := 0.97,
         start_time_1 := s3, start_time_2 := s4 },
       { clip_id_1 := a, clip_id_2 := c, similarity := 0.97,
         start_time_1 := s5, start_time_2 := s6 }]) :
    ∃ g, build_groups ps clips = [g] ∧
      g.group_type = GroupType.duplicate ∧ g.clip_ids.Perm [a, b, c] := by
  have hd : ∀ (x y : String) (t1 t2 : ℚ),
      classify_pair { clip_id_1 := x, clip_id_2 := y, similarity := 0.97,
                      start_time_1 := t1, start_time_2 := t2 } =
        some GroupType.duplicate := by
    intro x y t1 t2
    rw [classify_pair_duplicate_iff]
    norm_num [DUPLICATE_THRESHOLD]
  have h1 : (a == b) = false := by simpa using hab
  have h2 : (b == a) = false := by simpa using (Ne.symm hab)
  have h3 : (a == c) = false := by simpa using hac
  have h4 : (c == a) = false := by simpa using (Ne.symm hac)
  have h5 : (b == c) = false := by simpa using hbc
  have h6 : (c == b) = false := by simpa using (Ne.symm hbc)
  obtain ⟨k1, k2, k3, k4, k5, k6⟩ := sortedKey_distinct hab hac hbc
  rcases perm_triple_cases hperm with hps | hps | hps | hps | hps | hps <;>
    subst hps <;>
    simp [build_groups, hd, alSet, alGet, setAdd, connectedComponents, dfs,
      List.contains, List.foldl, List.flatMap, List.find?, List.any,
      List.map, List.filter, List.elem, h1, h2, h3, h4, h5, h6, hab, hac,
      hbc, Ne.symm hab, Ne.symm hac, Ne.symm hbc, k1, k2, k3, k4, k5, k6] <;>
    first
      | exact List.Perm.refl _
      | exact List.Perm.swap a b [c]
      | exact List.Perm.cons a (List.Perm.swap b c [])
      | exact (List.Perm.cons b (List.Perm.swap a c [])).trans
          (List.Perm.swap a b [c])
      | exact (List.Perm.swap a c [b]).trans
          (List.Perm.cons a (List.Perm.swap b c []))
      | exact (List.Perm.swap b c [a]).trans
          ((List.Perm.cons b (List.Perm.swap a c [])).trans
            (List.Perm.swap a b [c]))
      | exact List.Perm.swap a b []
      | exact List.Perm.swap a c []
      | exact List.Perm.swap b c []

set_option maxRecDepth 1000000 in
unseal Rat.add Rat.mul Rat.sub Rat.inv Rat.ofScientific in
/-- Witness for C4: the three 0.97 pairs over clips "a", "b", "c" inserted
in a rotated order still yield a single duplicate group over all three. -/
theorem C4_witness :
    ∃ g, build_groups
      [{ clip_id_1 := "a", clip_id_2 := "c", similarity := 0.97,
         start_time_1 := 0, start_time_2 := 0 },
       { clip_id_1 := "a", clip_id_2 := "b", similarity := 0.97,
         start_time_1 := 0, start_time_2 := 0 },
       { clip_id_1 := "b", clip_id_2 := "c", similarity := 0.97,
         start_time_1 := 0, start_time_2 := 0 }] [] = [g] ∧
      g.group_type = GroupType.duplicate ∧
      g.clip_ids.Perm ["a", "b", "c"] := by
  exact C4_pairwise_097_single_duplicate_group "a" "b" "c" (by decide)
    (by decide) (by decide) 0 0 0 0 0 0 _ [] (by decide)
